import Mathlib

/-!
# Sincro Avanzada: the FreeRTOS telemetry pipeline

A shallow embedding of `Fundamentos ESP32 Y FreeRTOS/Sincro Avanzada.c`.

* C `float` values are kept abstract: `F` is any type with a zero, an addition,
  a division and a cast from the naturals. Every result below holds for each
  such `F` (exact rationals as well as rounded machine floats).
* `uint8_t`, `uint16_t`, `uint32_t` are `Nat`; the `uint16_t` increments wrap
  explicitly modulo `65536`.
* The FreeRTOS primitives are modelled on their counters, bit sets and lists.
  In an aggregation cycle the outcome of each bounded `xSemaphoreTake`
  (obtained, or timed out) is an input of the cycle. Where the five tasks run
  together, the outcome of the take of `counting_semaphore` follows from its
  count, and the outcome of the take of `stats_mutex` stays an input.
* One loop iteration of a task is one step; a step returns the new state and
  the list of kernel calls it made. For what the reporter can see of the
  aggregator, a cycle of the aggregator is also given statement by statement
  (`Pc`, `processor_move`), the reporter running between any two statements
  outside the critical section of `stats_mutex`.
-/

namespace SincroAvanzada

/-! ## Constants (lines 16-18, 53-57) -/

def QUEUE_SIZE : Nat := 10

def SENSOR_1_READY_BIT : Nat := 1 <<< 0
def SENSOR_2_READY_BIT : Nat := 1 <<< 1
def SENSOR_3_READY_BIT : Nat := 1 <<< 2
def PROCESSING_DONE_BIT : Nat := 1 <<< 3
def ALL_SENSORS_READY : Nat :=
  SENSOR_1_READY_BIT ||| SENSOR_2_READY_BIT ||| SENSOR_3_READY_BIT

/-- The `uxMaxCount` given to `xSemaphoreCreateCounting(2, 2)` (line 358). -/
def LIMITER_MAX : Nat := 2

/-! ## Data (lines 24-36) -/

/-- The record `sensor_data_t`. -/
structure sensor_data_t (F : Type) where
  sensor_id : Nat
  value : F
  timestamp : Nat
deriving DecidableEq, Repr

/-- The record `shared_stats_t`. -/
structure shared_stats_t (F : Type) where
  temperature_avg : F
  humidity_avg : F
  pressure_avg : F
  total_samples : Nat
deriving DecidableEq, Repr

/-- The globals of the file together with the function-local statics of
`data_processor_task` (lines 43-63, 169-170). -/
structure State (F : Type) where
  sensor_queue : List (sensor_data_t F)
  counting_semaphore : Nat
  system_events : Nat
  global_stats : shared_stats_t F
  temp_sum : F
  humidity_sum : F
  pressure_sum : F
  temp_count : Nat
  humidity_count : Nat
  pressure_count : Nat
deriving DecidableEq, Repr

/-- Warnings written with `ESP_LOGW`. -/
inductive Warning where
  | cola_llena (sensor_id : Nat)
  | semaforo_no_disponible
  | estadisticas_no_accesibles
  | estadisticas_no_display
deriving DecidableEq, Repr

/-- Kernel calls and outputs made by a step, in program order. The purely
informational `ESP_LOGI` lines are left out, except the statistics block of
`display_task`, which is the published snapshot. -/
inductive Call (F : Type) where
  | take_counting (ok : Bool)
  | give_counting
  | take_mutex (ok : Bool)
  | give_mutex
  | set_bits (bits : Nat)
  | wait_bits (bits : Nat) (returned : Nat)
  | queue_send (ok : Bool)
  | delay_ms (ms : Nat)
  | warn (w : Warning)
  | publish (local_stats : shared_stats_t F)
deriving DecidableEq, Repr

/-! ## FreeRTOS primitives -/

/-- The call `xQueueSend` on a queue of capacity `cap`: appended at the back
when there is room, refused otherwise. -/
def xQueueSend {α : Type} (cap : Nat) (q : List α) (x : α) : Bool × List α :=
  if q.length < cap then (true, q ++ [x]) else (false, q)

/-- The call `xQueueReceive`: the front item, if any, and the rest. -/
def xQueueReceive {α : Type} (q : List α) : Option α × List α :=
  match q with
  | [] => (none, [])
  | x :: rest => (some x, rest)

/-- Count of a counting semaphore after a take with the given outcome: one less
when the take was obtained (which FreeRTOS grants only from a positive count),
unchanged when it timed out. -/
def xSemaphoreTake (ok : Bool) (uxCount : Nat) : Nat :=
  if ok then uxCount - 1 else uxCount

/-- Count of a counting semaphore after `xSemaphoreGive`: one more, unless the
count is already at `uxMaxCount`. -/
def xSemaphoreGive (uxMaxCount uxCount : Nat) : Nat :=
  if uxCount < uxMaxCount then uxCount + 1 else uxCount

/-- The call `xEventGroupSetBits`. -/
def xEventGroupSetBits (uxBits uxBitsToSet : Nat) : Nat :=
  uxBits ||| uxBitsToSet

/-- The wait condition of `xEventGroupWaitBits`. -/
def waitConditionMet (uxBits uxBitsToWaitFor : Nat) (xWaitForAllBits : Bool) : Bool :=
  if xWaitForAllBits then (uxBits &&& uxBitsToWaitFor) == uxBitsToWaitFor
  else (uxBits &&& uxBitsToWaitFor) != 0

/-- The call `xEventGroupWaitBits` at the moment it returns: the returned value
is the event group before any clearing; the waited bits are cleared only when
the condition was met and `xClearOnExit` is set. The result is
`(returned bits, event group afterwards)`. -/
def xEventGroupWaitBits (uxBits uxBitsToWaitFor : Nat)
    (xClearOnExit xWaitForAllBits : Bool) : Nat × Nat :=
  if waitConditionMet uxBits uxBitsToWaitFor xWaitForAllBits && xClearOnExit then
    (uxBits, uxBits ^^^ (uxBits &&& uxBitsToWaitFor))
  else (uxBits, uxBits)

section Tasks

variable {F : Type} [Zero F] [Add F] [Div F] [NatCast F]

/-! ## `data_processor_task` (lines 167-249) -/

/-- The `switch` of lines 198-211. -/
def accumulate (d : sensor_data_t F) (s : State F) : State F :=
  if d.sensor_id = 1 then
    { s with temp_sum := s.temp_sum + d.value,
             temp_count := (s.temp_count + 1) % 65536 }
  else if d.sensor_id = 2 then
    { s with humidity_sum := s.humidity_sum + d.value,
             humidity_count := (s.humidity_count + 1) % 65536 }
  else if d.sensor_id = 3 then
    { s with pressure_sum := s.pressure_sum + d.value,
             pressure_count := (s.pressure_count + 1) % 65536 }
  else s

/-- The critical section of lines 217-228. The sum of three `uint16_t` is an
`int` below `2^32`, so the store into `total_samples` does not wrap. -/
def update_stats (s : State F) : shared_stats_t F :=
  let g0 := s.global_stats
  let g1 := if 0 < s.temp_count then
    { g0 with temperature_avg := s.temp_sum / (s.temp_count : F) } else g0
  let g2 := if 0 < s.humidity_count then
    { g1 with humidity_avg := s.humidity_sum / (s.humidity_count : F) } else g1
  let g3 := if 0 < s.pressure_count then
    { g2 with pressure_avg := s.pressure_sum / (s.pressure_count : F) } else g2
  { g3 with total_samples := s.temp_count + s.humidity_count + s.pressure_count }

/-- Lines 215-234: the attempt on `stats_mutex` and what follows it. -/
def publish_stats (mutex_ok : Bool) (s : State F) : State F × List (Call F) :=
  if mutex_ok then
    ({ s with global_stats := update_stats s }, [Call.take_mutex true, Call.give_mutex])
  else
    (s, [Call.take_mutex false, Call.warn Warning.estadisticas_no_accesibles])

/-- Lines 239-242: the test on `global_stats.total_samples` after the limiter
has been given back. -/
def signal_done (s : State F) : State F × List (Call F) :=
  if 0 < s.global_stats.total_samples ∧ s.global_stats.total_samples % 10 = 0 then
    ({ s with system_events := xEventGroupSetBits s.system_events PROCESSING_DONE_BIT },
      [Call.set_bits PROCESSING_DONE_BIT])
  else (s, [])

/-- Lines 189-246: what the aggregator does with a sample it has dequeued. -/
def process_sample (limiter_ok mutex_ok : Bool) (d : sensor_data_t F) (s : State F) :
    State F × List (Call F) :=
  if limiter_ok then
    let s1 := { s with counting_semaphore := xSemaphoreTake true s.counting_semaphore }
    let s2 := accumulate d s1
    let r3 := publish_stats mutex_ok s2
    let s4 := { r3.1 with
      counting_semaphore := xSemaphoreGive LIMITER_MAX r3.1.counting_semaphore }
    let r5 := signal_done s4
    (r5.1, [Call.take_counting true, Call.delay_ms 100] ++ r3.2
            ++ [Call.give_counting] ++ r5.2)
  else
    (s, [Call.take_counting false, Call.warn Warning.semaforo_no_disponible])

/-- One iteration of the `while (1)` of lines 184-248. -/
def data_processor_iter (limiter_ok mutex_ok : Bool) (s : State F) :
    State F × List (Call F) :=
  match xQueueReceive s.sensor_queue with
  | (some d, rest) => process_sample limiter_ok mutex_ok d { s with sensor_queue := rest }
  | (none, _) => (s, [])

/-! ## `display_task` (lines 260-303) -/

/-- One iteration of the `while (1)` of lines 266-302. -/
def display_iter (mutex_ok : Bool) (s : State F) : State F × List (Call F) :=
  let w := xEventGroupWaitBits s.system_events PROCESSING_DONE_BIT true false
  let s1 := { s with system_events := w.2 }
  let c1 := [Call.wait_bits PROCESSING_DONE_BIT w.1]
  if mutex_ok then
    let local_stats := s1.global_stats
    (s1, c1 ++ [Call.take_mutex true, Call.give_mutex, Call.publish local_stats,
                Call.delay_ms 8000])
  else
    (s1, c1 ++ [Call.take_mutex false, Call.warn Warning.estadisticas_no_display,
                Call.delay_ms 8000])

/-- The snapshot written out by a step, if it wrote one. -/
def published (calls : List (Call F)) : List (shared_stats_t F) :=
  calls.filterMap fun c =>
    match c with
    | Call.publish g => some g
    | _ => none

/-! ## The three producers (lines 73-157) -/

/-- Line 84: the simulated temperature reading for a value of `esp_random()`. -/
def temperature_value (r : Nat) : F :=
  ((20 : Nat) : F) + ((r % 2000 : Nat) : F) / ((100 : Nat) : F)

/-- Line 114: the simulated humidity reading. -/
def humidity_value (r : Nat) : F :=
  ((30 : Nat) : F) + ((r % 6000 : Nat) : F) / ((100 : Nat) : F)

/-- Line 144: the simulated pressure reading. -/
def pressure_value (r : Nat) : F :=
  ((950 : Nat) : F) + ((r % 10000 : Nat) : F) / ((100 : Nat) : F)

/-- The readiness signal a producer gives before its loop (lines 80, 110, 140). -/
def sensor_ready (bit : Nat) (s : State F) : State F × List (Call F) :=
  ({ s with system_events := xEventGroupSetBits s.system_events bit }, [Call.set_bits bit])

/-- The common shape of a producer iteration: send the sample, warn when the
queue refused it, sleep for the period. -/
def sensor_send (d : sensor_data_t F) (period_ms : Nat) (s : State F) :
    State F × List (Call F) :=
  let r := xQueueSend QUEUE_SIZE s.sensor_queue d
  ({ s with sensor_queue := r.2 },
    [Call.queue_send r.1] ++ (if r.1 then [] else [Call.warn (Warning.cola_llena d.sensor_id)])
      ++ [Call.delay_ms period_ms])

/-- One iteration of the loop of `temperature_sensor_task` (lines 82-96). -/
def temperature_sensor_iter (rnd tick : Nat) (s : State F) : State F × List (Call F) :=
  sensor_send { sensor_id := 1, value := temperature_value rnd, timestamp := tick } 2000 s

/-- One iteration of the loop of `humidity_sensor_task` (lines 112-126). -/
def humidity_sensor_iter (rnd tick : Nat) (s : State F) : State F × List (Call F) :=
  sensor_send { sensor_id := 2, value := humidity_value rnd, timestamp := tick } 3000 s

/-- One iteration of the loop of `pressure_sensor_task` (lines 142-156). -/
def pressure_sensor_iter (rnd tick : Nat) (s : State F) : State F × List (Call F) :=
  sensor_send { sensor_id := 3, value := pressure_value rnd, timestamp := tick } 4000 s

/-! ## Start-up state -/

/-- The state once `app_main` has created the five objects: empty queue,
limiter at `2`, event group clear, statistics and accumulators zero. -/
def init : State F :=
  { sensor_queue := []
    counting_semaphore := LIMITER_MAX
    system_events := 0
    global_stats := { temperature_avg := 0, humidity_avg := 0, pressure_avg := 0,
                      total_samples := 0 }
    temp_sum := 0, humidity_sum := 0, pressure_sum := 0
    temp_count := 0, humidity_count := 0, pressure_count := 0 }

/-- One aggregation cycle as seen from outside: the dequeued sample and the
outcomes of the two bounded takes. -/
structure Cycle (F : Type) where
  data : sensor_data_t F
  limiter_ok : Bool
  mutex_ok : Bool
deriving DecidableEq, Repr

/-- The state after the aggregator has gone through the given cycles. -/
def run_cycles (s : State F) (cs : List (Cycle F)) : State F :=
  cs.foldl (fun st c => (process_sample c.limiter_ok c.mutex_ok c.data st).1) s

/-- A cycle on the given sample in which both takes are obtained. -/
def granted (d : sensor_data_t F) : Cycle F :=
  { data := d, limiter_ok := true, mutex_ok := true }

/-- Number of samples of source `i` in a sequence. -/
def samples_of (i : Nat) (ds : List (sensor_data_t F)) : Nat :=
  ds.countP fun d => decide (d.sensor_id = i)

/-- Number of `xSemaphoreGive(counting_semaphore)` among the calls of a step. -/
def gives_of_limiter (calls : List (Call F)) : Nat :=
  calls.countP fun c =>
    match c with
    | Call.give_counting => true
    | _ => false

/-- The sum `temp_count + humidity_count + pressure_count` of the aggregator. -/
def counts_total (s : State F) : Nat :=
  s.temp_count + s.humidity_count + s.pressure_count

/-! ## The five tasks running together -/

/-- The tasks that `app_main` leaves running. -/
inductive Task where
  | temperature
  | humidity
  | pressure
  | processor
  | display
deriving DecidableEq, Repr

/-- What a step takes from outside the program: the value of `esp_random()`,
the tick count, and the outcome of the bounded take of `stats_mutex`. -/
structure Oracle where
  rnd : Nat
  tick : Nat
  mutex_ok : Bool
deriving DecidableEq, Repr

/-- Outcome of the take of `counting_semaphore` when the tasks run together:
`data_processor_task` is the only task that takes or gives it, so nothing can
raise the count during the wait, and the take is obtained exactly when the
count is positive at the call. -/
def limiter_available (uxCount : Nat) : Bool :=
  decide (0 < uxCount)

/-- The shared state and, per task that has code before its loop, whether the
task is past that code: a producer past its `xEventGroupSetBits`, the
aggregator past the `xEventGroupWaitBits` of lines 176-180. -/
structure Sys (F : Type) where
  st : State F
  temperature_in_loop : Bool
  humidity_in_loop : Bool
  pressure_in_loop : Bool
  processor_in_loop : Bool
deriving DecidableEq, Repr

/-- The system right after start-up: every task at its first line. -/
def init_sys : Sys F :=
  { st := init
    temperature_in_loop := false
    humidity_in_loop := false
    pressure_in_loop := false
    processor_in_loop := false }

/-- The barrier of lines 176-180: wait for all of `ALL_SENSORS_READY`, no clear
on exit, no timeout. The aggregator goes on only when the wait condition is
met; otherwise it stays blocked and nothing changes. -/
def processor_barrier (y : Sys F) : Sys F :=
  if waitConditionMet y.st.system_events ALL_SENSORS_READY true then
    { y with
      st := { y.st with
        system_events := (xEventGroupWaitBits y.st.system_events ALL_SENSORS_READY false true).2 }
      processor_in_loop := true }
  else y

/-- The task `temperature_sensor_task` (lines 73-97), one block at a time: the
readiness signal of line 80 first, then one loop iteration per step. -/
def temperature_sensor_task (rnd tick : Nat) (y : Sys F) : Sys F :=
  if y.temperature_in_loop then
    { y with st := (temperature_sensor_iter rnd tick y.st).1 }
  else
    { y with st := (sensor_ready SENSOR_1_READY_BIT y.st).1, temperature_in_loop := true }

/-- The task `humidity_sensor_task` (lines 103-127), one block at a time. -/
def humidity_sensor_task (rnd tick : Nat) (y : Sys F) : Sys F :=
  if y.humidity_in_loop then
    { y with st := (humidity_sensor_iter rnd tick y.st).1 }
  else
    { y with st := (sensor_ready SENSOR_2_READY_BIT y.st).1, humidity_in_loop := true }

/-- The task `pressure_sensor_task` (lines 133-157), one block at a time. -/
def pressure_sensor_task (rnd tick : Nat) (y : Sys F) : Sys F :=
  if y.pressure_in_loop then
    { y with st := (pressure_sensor_iter rnd tick y.st).1 }
  else
    { y with st := (sensor_ready SENSOR_3_READY_BIT y.st).1, pressure_in_loop := true }

/-- The task `data_processor_task` (lines 167-249), one block at a time: the
barrier first, then one loop iteration per step. -/
def data_processor_task (mutex_ok : Bool) (y : Sys F) : Sys F :=
  if y.processor_in_loop then
    { y with st := (data_processor_iter (limiter_available y.st.counting_semaphore)
                      mutex_ok y.st).1 }
  else processor_barrier y

/-- The task `display_task` (lines 260-303), one loop iteration per step. -/
def display_task (mutex_ok : Bool) (y : Sys F) : Sys F :=
  { y with st := (display_iter mutex_ok y.st).1 }

/-- The chosen task runs its next block. -/
def step (t : Task) (o : Oracle) (y : Sys F) : Sys F :=
  match t with
  | Task.temperature => temperature_sensor_task o.rnd o.tick y
  | Task.humidity => humidity_sensor_task o.rnd o.tick y
  | Task.pressure => pressure_sensor_task o.rnd o.tick y
  | Task.processor => data_processor_task o.mutex_ok y
  | Task.display => display_task o.mutex_ok y

/-- The system after a schedule: which task runs at each step, and with what
outside inputs. -/
def run (y : Sys F) (schedule : List (Task × Oracle)) : Sys F :=
  schedule.foldl (fun z a => step a.1 a.2 z) y

/-- The state after producers have gone through the given sends, one after the
other, with no receive in between; each send is a sample and the period of the
producer that sends it. -/
def run_sends (s : State F) (ds : List (sensor_data_t F × Nat)) : State F :=
  ds.foldl (fun st d => (sensor_send d.1 d.2 st).1) s

/-- The state after the aggregator has gone through loop iterations with the
given outcomes `(limiter_ok, mutex_ok)` of its two takes. -/
def run_processor (s : State F) (os : List (Bool × Bool)) : State F :=
  os.foldl (fun st o => (data_processor_iter o.1 o.2 st).1) s

/-- The divisors of the divisions of lines 218-226, in program order: a
division is made only under its guard `count > 0`. -/
def update_stats_divisors (s : State F) : List Nat :=
  (if 0 < s.temp_count then [s.temp_count] else [])
    ++ (if 0 < s.humidity_count then [s.humidity_count] else [])
    ++ (if 0 < s.pressure_count then [s.pressure_count] else [])

/-! ## `data_processor_task`, statement by statement

The reporter can run between any two statements of the aggregator that are
outside the critical section of `stats_mutex`. Here a cycle is cut at each such
point. -/

/-- Lines 200, 204, 208: the first statement of the `case` of the sample. -/
def accumulate_sum (d : sensor_data_t F) (s : State F) : State F :=
  if d.sensor_id = 1 then { s with temp_sum := s.temp_sum + d.value }
  else if d.sensor_id = 2 then { s with humidity_sum := s.humidity_sum + d.value }
  else if d.sensor_id = 3 then { s with pressure_sum := s.pressure_sum + d.value }
  else s

/-- Lines 201, 205, 209: the second statement of the `case` of the sample. -/
def accumulate_count (d : sensor_data_t F) (s : State F) : State F :=
  if d.sensor_id = 1 then { s with temp_count := (s.temp_count + 1) % 65536 }
  else if d.sensor_id = 2 then { s with humidity_count := (s.humidity_count + 1) % 65536 }
  else if d.sensor_id = 3 then { s with pressure_count := (s.pressure_count + 1) % 65536 }
  else s

/-- Where the aggregator is in its loop: waiting on the queue (line 186); past
the take of the limiter and before the `switch` (lines 189-197); between the
two statements of a `case`; past the `switch` and before the take of
`stats_mutex` (line 215); past the `if`/`else` of lines 215-234 and before the
give of the limiter (line 237). -/
inductive Pc (F : Type) where
  | idle
  | taken (d : sensor_data_t F)
  | summed (d : sensor_data_t F)
  | counted
  | stored
deriving DecidableEq, Repr

/-- The shared state, the place of the aggregator in its loop, and a history
flag: `unwritten` says that a count has been incremented (lines 201, 205, 209)
since `global_stats` was last written (lines 217-228). -/
structure Fine (F : Type) where
  st : State F
  pc : Pc F
  unwritten : Bool
deriving DecidableEq, Repr

/-- Who moves next: the aggregator, by one statement, or the reporter, by one
loop iteration. The aggregator's move carries what comes from outside if the
statement needs it: the sample received at line 186 and the outcomes of the
takes of lines 189 and 215. -/
inductive Move (F : Type) where
  | processor (d : sensor_data_t F) (limiter_ok mutex_ok : Bool)
  | display (mutex_ok : Bool)
deriving DecidableEq, Repr

/-- The aggregator's next statement. -/
def processor_move (d : sensor_data_t F) (limiter_ok mutex_ok : Bool) (y : Fine F) : Fine F :=
  match y.pc with
  | Pc.idle =>
    if limiter_ok then
      { y with
        st := { y.st with
          counting_semaphore := xSemaphoreTake true y.st.counting_semaphore }
        pc := Pc.taken d }
    else y
  | Pc.taken e => { y with st := accumulate_sum e y.st, pc := Pc.summed e }
  | Pc.summed e =>
    { y with
      st := accumulate_count e y.st
      pc := Pc.counted
      unwritten :=
        y.unwritten || decide (e.sensor_id = 1 ∨ e.sensor_id = 2 ∨ e.sensor_id = 3) }
  | Pc.counted =>
    { y with
      st := (publish_stats mutex_ok y.st).1
      pc := Pc.stored
      unwritten := if mutex_ok then false else y.unwritten }
  | Pc.stored =>
    { y with
      st := (signal_done
        { y.st with
          counting_semaphore := xSemaphoreGive LIMITER_MAX y.st.counting_semaphore }).1
      pc := Pc.idle }

/-- One move of the aggregator or of the reporter. -/
def fine_step (m : Move F) (y : Fine F) : Fine F :=
  match m with
  | Move.processor d limiter_ok mutex_ok => processor_move d limiter_ok mutex_ok y
  | Move.display mutex_ok => { y with st := (display_iter mutex_ok y.st).1 }

/-- The state after the given moves. -/
def fine_run (y : Fine F) (ms : List (Move F)) : Fine F :=
  ms.foldl (fun z m => fine_step m z) y

/-- The aggregator waiting on the queue in the zeroed state. -/
def fine_init : Fine F :=
  { st := init, pc := Pc.idle, unwritten := false }

/-- The moves of the aggregator through one whole cycle: the five statements
when the limiter is obtained, the failed take alone otherwise. -/
def cycle_moves (c : Cycle F) : List (Move F) :=
  if c.limiter_ok then List.replicate 5 (Move.processor c.data true c.mutex_ok)
  else [Move.processor c.data false c.mutex_ok]

/-- The moves of the aggregator through the given cycles, one whole cycle after
the other. -/
def cycles_moves (cs : List (Cycle F)) : List (Move F) :=
  cs.foldr (fun c rest => cycle_moves c ++ rest) []

/-- What is shown to hold of every state the system reaches: a readiness bit is
set only once its producer is past its signal, and the aggregator is in its
loop only when the three readiness bits are set. -/
def barrier_invariant (y : Sys F) : Prop :=
  (y.st.system_events.testBit 0 = true → y.temperature_in_loop = true) ∧
  (y.st.system_events.testBit 1 = true → y.humidity_in_loop = true) ∧
  (y.st.system_events.testBit 2 = true → y.pressure_in_loop = true) ∧
  (y.processor_in_loop = true →
    y.st.system_events.testBit 0 = true ∧ y.st.system_events.testBit 1 = true ∧
    y.st.system_events.testBit 2 = true)

end Tasks

/-! ## Start-up: `system_init_task` and `app_main` (lines 313-425) -/

/-- The five objects `app_main` creates, in creation order. -/
inductive Resource where
  | sensor_queue
  | binary_semaphore
  | counting_semaphore
  | system_events
  | stats_mutex
deriving DecidableEq, Repr

/-- The six tasks `app_main` creates, by the function each one runs. -/
inductive TaskName where
  | system_init_task
  | temperature_sensor_task
  | humidity_sensor_task
  | pressure_sensor_task
  | data_processor_task
  | display_task
deriving DecidableEq, Repr

/-- What `app_main` and `system_init_task` do, in program order: a creation
call with its outcome, the take and the give of `binary_semaphore`, the delay
and the self-deletion of `system_init_task`. -/
inductive Boot where
  | create (r : Resource) (ok : Bool)
  | task_create (t : TaskName) (ok : Bool)
  | take_binary
  | give_binary
  | delay_ms (ms : Nat)
  | task_delete
deriving DecidableEq, Repr

/-- The outcome of each creation call of `app_main`: `true` for a handle (or
`pdPASS`), `false` for `NULL` (or a failure code). -/
structure Creations where
  sensor_queue : Bool
  binary_semaphore : Bool
  counting_semaphore : Bool
  system_events : Bool
  stats_mutex : Bool
  system_init_task : Bool
  temperature_sensor_task : Bool
  humidity_sensor_task : Bool
  pressure_sensor_task : Bool
  data_processor_task : Bool
  display_task : Bool
deriving DecidableEq, Repr

/-- The function `app_main` (lines 334-425): every failed creation returns at
once; the take of `binary_semaphore` has no timeout, so what follows it runs
only once the token has been obtained. -/
def app_main (c : Creations) : List Boot :=
  if c.sensor_queue = false then [Boot.create Resource.sensor_queue false] else
  Boot.create Resource.sensor_queue true ::
  if c.binary_semaphore = false then [Boot.create Resource.binary_semaphore false] else
  Boot.create Resource.binary_semaphore true ::
  if c.counting_semaphore = false then [Boot.create Resource.counting_semaphore false] else
  Boot.create Resource.counting_semaphore true ::
  if c.system_events = false then [Boot.create Resource.system_events false] else
  Boot.create Resource.system_events true ::
  if c.stats_mutex = false then [Boot.create Resource.stats_mutex false] else
  Boot.create Resource.stats_mutex true ::
  if c.system_init_task = false then [Boot.task_create TaskName.system_init_task false] else
  Boot.task_create TaskName.system_init_task true ::
  Boot.take_binary ::
  if c.temperature_sensor_task = false then
    [Boot.task_create TaskName.temperature_sensor_task false] else
  Boot.task_create TaskName.temperature_sensor_task true ::
  if c.humidity_sensor_task = false then
    [Boot.task_create TaskName.humidity_sensor_task false] else
  Boot.task_create TaskName.humidity_sensor_task true ::
  if c.pressure_sensor_task = false then
    [Boot.task_create TaskName.pressure_sensor_task false] else
  Boot.task_create TaskName.pressure_sensor_task true ::
  if c.data_processor_task = false then
    [Boot.task_create TaskName.data_processor_task false] else
  Boot.task_create TaskName.data_processor_task true ::
  if c.display_task = false then [Boot.task_create TaskName.display_task false] else
  [Boot.task_create TaskName.display_task true]

/-- The task `system_init_task` (lines 313-328) on the count of
`binary_semaphore`, a semaphore of maximum count `1`: the count after the give,
and what the task does. -/
def system_init_task (binary_semaphore : Nat) : Nat × List Boot :=
  (xSemaphoreGive 1 binary_semaphore,
    [Boot.delay_ms 1000, Boot.give_binary, Boot.task_delete])

/-- The tasks a start-up trace has spawned, in order. -/
def spawned (trace : List Boot) : List TaskName :=
  trace.filterMap fun e =>
    match e with
    | Boot.task_create t true => some t
    | _ => none

/-- The order in which `app_main` creates the tasks. -/
def creation_order : List TaskName :=
  [TaskName.system_init_task, TaskName.temperature_sensor_task,
   TaskName.humidity_sensor_task, TaskName.pressure_sensor_task,
   TaskName.data_processor_task, TaskName.display_task]

/-- Position of a task in `creation_order`. -/
def creation_rank (t : TaskName) : Nat :=
  match t with
  | TaskName.system_init_task => 0
  | TaskName.temperature_sensor_task => 1
  | TaskName.humidity_sensor_task => 2
  | TaskName.pressure_sensor_task => 3
  | TaskName.data_processor_task => 4
  | TaskName.display_task => 5

/-- The outcome of the creation of a given task. -/
def task_created (c : Creations) (t : TaskName) : Bool :=
  match t with
  | TaskName.system_init_task => c.system_init_task
  | TaskName.temperature_sensor_task => c.temperature_sensor_task
  | TaskName.humidity_sensor_task => c.humidity_sensor_task
  | TaskName.pressure_sensor_task => c.pressure_sensor_task
  | TaskName.data_processor_task => c.data_processor_task
  | TaskName.display_task => c.display_task

/-- Every creation succeeds. -/
def all_created : Creations :=
  { sensor_queue := true, binary_semaphore := true, counting_semaphore := true,
    system_events := true, stats_mutex := true, system_init_task := true,
    temperature_sensor_task := true, humidity_sensor_task := true,
    pressure_sensor_task := true, data_processor_task := true, display_task := true }

/-- Number of gives of `binary_semaphore` in a trace. -/
def gives_of_gate (trace : List Boot) : Nat :=
  trace.count Boot.give_binary

/-- Start-up as two threads of control: what `app_main` has done and has still
to do, the count of `binary_semaphore` (created empty), and whether
`system_init_task` has run. -/
structure BootSys where
  done : List Boot
  pending : List Boot
  binary_semaphore : Nat
  init_trace : List Boot
deriving DecidableEq, Repr

/-- Start-up before `app_main` has done anything. -/
def boot_init (c : Creations) : BootSys :=
  { done := [], pending := app_main c, binary_semaphore := 0, init_trace := [] }

/-- Who runs next during start-up. -/
inductive BootWho where
  | app_main
  | system_init_task
deriving DecidableEq, Repr

/-- One step of start-up. `app_main` performs its next call, except that the
take of `binary_semaphore` goes through only when the count is positive and
blocks otherwise. `system_init_task` runs, once, after it has been created. -/
def boot_step (w : BootWho) (b : BootSys) : BootSys :=
  match w with
  | BootWho.app_main =>
    match b.pending with
    | [] => b
    | Boot.take_binary :: rest =>
      if 0 < b.binary_semaphore then
        { b with done := b.done ++ [Boot.take_binary], pending := rest,
                 binary_semaphore := xSemaphoreTake true b.binary_semaphore }
      else b
    | e :: rest => { b with done := b.done ++ [e], pending := rest }
  | BootWho.system_init_task =>
    if Boot.task_create TaskName.system_init_task true ∈ b.done ∧ b.init_trace = [] then
      { b with binary_semaphore := (system_init_task b.binary_semaphore).1,
               init_trace := (system_init_task b.binary_semaphore).2 }
    else b

/-- Start-up after a schedule of its two threads of control. -/
def boot_run (b : BootSys) (schedule : List BootWho) : BootSys :=
  schedule.foldl (fun z w => boot_step w z) b

end SincroAvanzada

/-!
# Leds e Interrupciones: the debounced GPIO interrupt handler

A shallow embedding of `gpio_isr_handler` of
`Fundamentos ESP32 Y FreeRTOS/Leds e Interrupciones.c` (lines 55-103).
`uint32_t` values are `Nat`; the unsigned subtraction wraps explicitly modulo
`2^32`.
-/

namespace LedsInterrupciones

/-! ## Constants (lines 19-22, 31-35, 46, 340) -/

def BOTON_1_PIN : Nat := 18
def BOTON_2_PIN : Nat := 19
def BOTON_3_PIN : Nat := 21

def TIEMPO_DEBOUNCE_MS : Nat := 200

/-- The length given to `xQueueCreate(10, sizeof(evento_interrupcion_t))`. -/
def COLA_EVENTOS_LEN : Nat := 10

/-- The enumeration `evento_interrupcion_t`. -/
inductive evento_interrupcion_t where
  | EVENTO_BOTON_1
  | EVENTO_BOTON_2
  | EVENTO_BOTON_3
deriving DecidableEq, Repr

/-- The variable a pointer `ultimo_tiempo` of the handler points to. -/
inductive UltimoTiempo where
  | boton1
  | boton2
  | boton3
deriving DecidableEq, Repr

/-- The globals the handler reads and writes (lines 38, 43-45). -/
structure Globals where
  cola_eventos_gpio : List evento_interrupcion_t
  ultimo_tiempo_boton1 : Nat
  ultimo_tiempo_boton2 : Nat
  ultimo_tiempo_boton3 : Nat
deriving DecidableEq, Repr

/-- The read `*ultimo_tiempo`. -/
def Globals.read (g : Globals) (p : UltimoTiempo) : Nat :=
  match p with
  | UltimoTiempo.boton1 => g.ultimo_tiempo_boton1
  | UltimoTiempo.boton2 => g.ultimo_tiempo_boton2
  | UltimoTiempo.boton3 => g.ultimo_tiempo_boton3

/-- The write `*ultimo_tiempo = v`. -/
def Globals.write (g : Globals) (p : UltimoTiempo) (v : Nat) : Globals :=
  match p with
  | UltimoTiempo.boton1 => { g with ultimo_tiempo_boton1 := v }
  | UltimoTiempo.boton2 => { g with ultimo_tiempo_boton2 := v }
  | UltimoTiempo.boton3 => { g with ultimo_tiempo_boton3 := v }

/-- Subtraction of two `uint32_t`. -/
def sub_u32 (a b : Nat) : Nat :=
  (a + (4294967296 - b % 4294967296)) % 4294967296

/-- The call `xQueueSendFromISR` on a queue of the given length: the item goes
to the back when there is room, and is refused, the queue unchanged, when the
queue is full. The handler does not look at the result. -/
def xQueueSendFromISR {α : Type} (len : Nat) (q : List α) (x : α) : List α :=
  if q.length < len then q ++ [x] else q

/-- The `switch` of lines 68-83: the event and the variable for a pin, or
nothing for a pin that is not a button. -/
def select_boton (gpio_num : Nat) : Option (evento_interrupcion_t × UltimoTiempo) :=
  if gpio_num = BOTON_1_PIN then
    some (evento_interrupcion_t.EVENTO_BOTON_1, UltimoTiempo.boton1)
  else if gpio_num = BOTON_2_PIN then
    some (evento_interrupcion_t.EVENTO_BOTON_2, UltimoTiempo.boton2)
  else if gpio_num = BOTON_3_PIN then
    some (evento_interrupcion_t.EVENTO_BOTON_3, UltimoTiempo.boton3)
  else none

/-- The handler `gpio_isr_handler` (lines 55-103). `tiempo_actual` is the
`uint32_t` value of `xTaskGetTickCountFromISR() * portTICK_PERIOD_MS`. -/
def gpio_isr_handler (gpio_num tiempo_actual : Nat) (g : Globals) : Globals :=
  match select_boton gpio_num with
  | none => g
  | some (evento, ultimo_tiempo) =>
    if TIEMPO_DEBOUNCE_MS ≤ sub_u32 tiempo_actual (g.read ultimo_tiempo) then
      let g1 := g.write ultimo_tiempo tiempo_actual
      { g1 with
        cola_eventos_gpio := xQueueSendFromISR COLA_EVENTOS_LEN g1.cola_eventos_gpio evento }
    else g

end LedsInterrupciones

/-!
# P_2.1: the humidity producer of the practice file

A shallow embedding of the loop of `generate_data_humidity` of
`Tema1_Fundamentos FreeRTOS/Practica_Lab/P_2.1/main/main.c` (lines 79-97),
with the same conventions as above for `float` and the unsigned integers.
-/

namespace P_2_1

def QUEUE_SIZE : Nat := 10

/-- The record `sensor_data_t` (lines 29-33). -/
structure sensor_data_t (F : Type) where
  ID : Nat
  value : F
  timestamp : Nat
deriving DecidableEq, Repr

section Producer

variable {F : Type} [Add F] [Div F] [NatCast F]

/-- Line 86: the value `generate_data_humidity` computes from a value of
`esp_random()`. -/
def humidity_reading (r : Nat) : F :=
  ((20 : Nat) : F) + ((r % 2000 : Nat) : F) / ((100 : Nat) : F)

/-- The record handed to `xQueueSend` in an iteration of the loop of
`generate_data_humidity` (lines 81, 86-87). -/
def humidity_sample (rnd tick : Nat) : sensor_data_t F :=
  { ID := 2, value := humidity_reading rnd, timestamp := tick }

/-- One iteration of the loop of `generate_data_humidity` (lines 85-96) on
the contents of `Sensor_queue`: whether the send was accepted, and the queue
afterwards. -/
def generate_data_humidity (rnd tick : Nat) (Sensor_queue : List (sensor_data_t F)) :
    Bool × List (sensor_data_t F) :=
  SincroAvanzada.xQueueSend QUEUE_SIZE Sensor_queue (humidity_sample rnd tick)

end Producer

end P_2_1

namespace SincroAvanzada

set_option linter.unusedSectionVars false

section Lemmas

variable {F : Type} [Zero F] [Add F] [Div F] [NatCast F]

/-! ## Frame lemmas for the pieces of an aggregation cycle -/

theorem accumulate_frame (d : sensor_data_t F) (s : State F) :
    (accumulate d s).global_stats = s.global_stats ∧
    (accumulate d s).system_events = s.system_events ∧
    (accumulate d s).counting_semaphore = s.counting_semaphore ∧
    (accumulate d s).sensor_queue = s.sensor_queue := by
  unfold accumulate
  split_ifs <;> simp

theorem update_stats_total (s : State F) :
    (update_stats s).total_samples = counts_total s := by
  simp [update_stats, counts_total]

theorem signal_done_frame (s : State F) :
    (signal_done s).1.global_stats = s.global_stats ∧
    (signal_done s).1.counting_semaphore = s.counting_semaphore ∧
    (signal_done s).1.sensor_queue = s.sensor_queue ∧
    (signal_done s).1.temp_sum = s.temp_sum ∧
    (signal_done s).1.humidity_sum = s.humidity_sum ∧
    (signal_done s).1.pressure_sum = s.pressure_sum ∧
    (signal_done s).1.temp_count = s.temp_count ∧
    (signal_done s).1.humidity_count = s.humidity_count ∧
    (signal_done s).1.pressure_count = s.pressure_count := by
  unfold signal_done
  split_ifs <;> simp

/-- The accumulators after a cycle that obtained the limiter are those the
`switch` leaves, whatever happened at the mutex. -/
theorem process_sample_accumulators (mutex_ok : Bool) (d : sensor_data_t F) (s : State F) :
    (process_sample true mutex_ok d s).1.temp_sum = (accumulate d s).temp_sum ∧
    (process_sample true mutex_ok d s).1.humidity_sum = (accumulate d s).humidity_sum ∧
    (process_sample true mutex_ok d s).1.pressure_sum = (accumulate d s).pressure_sum ∧
    (process_sample true mutex_ok d s).1.temp_count = (accumulate d s).temp_count ∧
    (process_sample true mutex_ok d s).1.humidity_count = (accumulate d s).humidity_count ∧
    (process_sample true mutex_ok d s).1.pressure_count = (accumulate d s).pressure_count := by
  cases mutex_ok <;>
    simp only [process_sample, publish_stats, if_true, signal_done_frame] <;>
    (unfold accumulate; split_ifs <;> simp)

/-- With the mutex obtained, the stored total is the sum of the counts. -/
theorem process_sample_total (d : sensor_data_t F) (s : State F) :
    (process_sample true true d s).1.global_stats.total_samples
      = counts_total (process_sample true true d s).1 := by
  have h := process_sample_accumulators true d s
  simp only [counts_total, h]
  simp only [process_sample, publish_stats, if_true, signal_done_frame, update_stats_total,
    counts_total]
  unfold accumulate; split_ifs <;> simp

theorem publish_stats_frame (mutex_ok : Bool) (s : State F) :
    (publish_stats mutex_ok s).1.counting_semaphore = s.counting_semaphore ∧
    (publish_stats mutex_ok s).1.system_events = s.system_events ∧
    (publish_stats mutex_ok s).1.sensor_queue = s.sensor_queue := by
  cases mutex_ok <;> simp [publish_stats]

/-- The limiter count after a cycle that obtained it: taken, then given. -/
theorem process_sample_limiter (mutex_ok : Bool) (d : sensor_data_t F) (s : State F) :
    (process_sample true mutex_ok d s).1.counting_semaphore
      = xSemaphoreGive LIMITER_MAX (xSemaphoreTake true s.counting_semaphore) := by
  simp only [process_sample, if_true, signal_done_frame]
  simp [publish_stats_frame, accumulate_frame]

theorem process_sample_skip (mutex_ok : Bool) (d : sensor_data_t F) (s : State F) :
    process_sample false mutex_ok d s
      = (s, [Call.take_counting false, Call.warn Warning.semaforo_no_disponible]) := by
  simp [process_sample]

theorem run_cycles_append (s : State F) (cs : List (Cycle F)) (c : Cycle F) :
    run_cycles s (cs ++ [c])
      = (process_sample c.limiter_ok c.mutex_ok c.data (run_cycles s cs)).1 := by
  simp [run_cycles, List.foldl_append]

/-- The stored total agrees with the counts after any cycles in which the mutex
was obtained whenever the limiter was. -/
theorem run_cycles_total (cs : List (Cycle F))
    (h : ∀ c ∈ cs, c.limiter_ok = true → c.mutex_ok = true) :
    (run_cycles (init : State F) cs).global_stats.total_samples
      = counts_total (run_cycles (init : State F) cs) := by
  induction cs using List.reverseRecOn with
  | nil => simp [run_cycles, init, counts_total]
  | append_singleton cs c ih =>
    have ih1 := ih (fun x hx => h x (List.mem_append_left _ hx))
    have hc := h c (by simp)
    rw [run_cycles_append]
    cases hl : c.limiter_ok with
    | false => rw [process_sample_skip]; exact ih1
    | true =>
      rw [hc hl]
      exact process_sample_total _ _

/-- Whether a cycle that obtained the limiter signals, and what it leaves in
the event group, is decided by the total stored at the end of the cycle. -/
theorem process_sample_signal (mutex_ok : Bool) (d : sensor_data_t F) (s : State F) :
    (Call.set_bits PROCESSING_DONE_BIT ∈ (process_sample true mutex_ok d s).2 ↔
      (0 < (process_sample true mutex_ok d s).1.global_stats.total_samples ∧
       (process_sample true mutex_ok d s).1.global_stats.total_samples % 10 = 0)) ∧
    (process_sample true mutex_ok d s).1.system_events
      = (if 0 < (process_sample true mutex_ok d s).1.global_stats.total_samples ∧
            (process_sample true mutex_ok d s).1.global_stats.total_samples % 10 = 0
         then xEventGroupSetBits s.system_events PROCESSING_DONE_BIT
         else s.system_events) := by
  simp only [process_sample, if_true, signal_done_frame]
  cases mutex_ok <;>
    simp only [signal_done, publish_stats, if_true] <;>
    split_ifs <;> simp_all [accumulate_frame]

theorem samples_of_cons (i : Nat) (d : sensor_data_t F) (ds : List (sensor_data_t F)) :
    samples_of i (d :: ds) = samples_of i ds + (if d.sensor_id = i then 1 else 0) := by
  simp [samples_of, List.countP_cons]

theorem samples_of_le_length (i : Nat) (ds : List (sensor_data_t F)) :
    samples_of i ds ≤ ds.length := by
  simp [samples_of, List.countP_le_length]

/-- Samples with ids in `1, 2, 3` are split by the three sources. -/
theorem samples_of_sum (ds : List (sensor_data_t F))
    (hid : ∀ d ∈ ds, d.sensor_id = 1 ∨ d.sensor_id = 2 ∨ d.sensor_id = 3) :
    samples_of 1 ds + samples_of 2 ds + samples_of 3 ds = ds.length := by
  induction ds with
  | nil => simp [samples_of]
  | cons d ds ih =>
    have h := ih (fun x hx => hid x (List.mem_cons_of_mem _ hx))
    have hd := hid d (List.mem_cons_self _ _)
    simp only [samples_of_cons, List.length_cons]
    rcases hd with e | e | e <;> simp [e] <;> omega

/-- The three counts after cycles that all obtained both takes, modulo the
`uint16_t` range. -/
theorem run_granted_counts (ds : List (sensor_data_t F)) (s : State F)
    (h1 : s.temp_count < 65536) (h2 : s.humidity_count < 65536)
    (h3 : s.pressure_count < 65536) :
    (run_cycles s (ds.map granted)).temp_count
      = (s.temp_count + samples_of 1 ds) % 65536 ∧
    (run_cycles s (ds.map granted)).humidity_count
      = (s.humidity_count + samples_of 2 ds) % 65536 ∧
    (run_cycles s (ds.map granted)).pressure_count
      = (s.pressure_count + samples_of 3 ds) % 65536 := by
  induction ds generalizing s with
  | nil =>
    simp only [samples_of, run_cycles, List.map_nil, List.foldl_nil, List.countP_nil]
    omega
  | cons d ds ih =>
    obtain ⟨a1, a2, a3, a4, a5, a6⟩ := process_sample_accumulators true d s
    have e1 : (process_sample true true d s).1.temp_count
        = (s.temp_count + (if d.sensor_id = 1 then 1 else 0)) % 65536 := by
      rw [a4]; unfold accumulate; split_ifs <;> simp_all <;> omega
    have e2 : (process_sample true true d s).1.humidity_count
        = (s.humidity_count + (if d.sensor_id = 2 then 1 else 0)) % 65536 := by
      rw [a5]; unfold accumulate; split_ifs <;> simp_all <;> omega
    have e3 : (process_sample true true d s).1.pressure_count
        = (s.pressure_count + (if d.sensor_id = 3 then 1 else 0)) % 65536 := by
      rw [a6]; unfold accumulate; split_ifs <;> simp_all <;> omega
    have ih1 := ih (process_sample true true d s).1
      (by rw [e1]; omega) (by rw [e2]; omega) (by rw [e3]; omega)
    have hrun : run_cycles s ((d :: ds).map granted)
        = run_cycles (process_sample true true d s).1 (ds.map granted) := by
      simp [run_cycles, granted]
    rw [hrun, ih1.1, ih1.2.1, ih1.2.2, e1, e2, e3]
    simp only [samples_of_cons]
    refine ⟨?_, ?_, ?_⟩ <;> omega

/-- From the zeroed state, cycles that all obtained both takes on at most
`65535` samples with ids in `1, 2, 3` store the number of samples. -/
theorem run_granted_total (ds : List (sensor_data_t F))
    (hid : ∀ d ∈ ds, d.sensor_id = 1 ∨ d.sensor_id = 2 ∨ d.sensor_id = 3)
    (h1 : samples_of 1 ds < 65536) (h2 : samples_of 2 ds < 65536)
    (h3 : samples_of 3 ds < 65536) :
    (run_cycles (init : State F) (ds.map granted)).global_stats.total_samples = ds.length := by
  have ht := run_cycles_total (ds.map (granted : sensor_data_t F → Cycle F)) (by
    intro c hc _
    simp only [List.mem_map] at hc
    obtain ⟨d, _, rfl⟩ := hc
    rfl)
  obtain ⟨c1, c2, c3⟩ := run_granted_counts ds (init : State F)
    (by simp [init]) (by simp [init]) (by simp [init])
  have hs := samples_of_sum ds hid
  rw [ht, counts_total, c1, c2, c3]
  simp only [init]
  omega

theorem run_granted_snoc (s : State F) (ds : List (sensor_data_t F)) (d : sensor_data_t F) :
    run_cycles s ((ds ++ [d]).map granted)
      = (process_sample true true d (run_cycles s (ds.map granted))).1 := by
  rw [List.map_append, List.map_singleton, run_cycles_append]
  rfl

/-- The total stored by the cycle that follows at most `65534` granted ones. -/
theorem next_cycle_total (ds : List (sensor_data_t F)) (d : sensor_data_t F)
    (hid : ∀ x ∈ ds ++ [d], x.sensor_id = 1 ∨ x.sensor_id = 2 ∨ x.sensor_id = 3)
    (hlen : ds.length < 65535) :
    (process_sample true true d
      (run_cycles (init : State F) (ds.map granted))).1.global_stats.total_samples
      = ds.length + 1 := by
  have hl : (ds ++ [d]).length = ds.length + 1 := by simp
  have b := fun i => samples_of_le_length i (ds ++ [d])
  have h := run_granted_total (ds ++ [d]) hid
    (by have := b 1; omega) (by have := b 2; omega) (by have := b 3; omega)
  rw [run_granted_snoc, hl] at h
  exact h

/-- The event group stays clear through the first nine granted cycles. -/
theorem events_clear_before_ten (ds : List (sensor_data_t F))
    (hid : ∀ x ∈ ds, x.sensor_id = 1 ∨ x.sensor_id = 2 ∨ x.sensor_id = 3)
    (hlen : ds.length ≤ 9) :
    (run_cycles (init : State F) (ds.map granted)).system_events = 0 := by
  induction ds using List.reverseRecOn with
  | nil => simp [run_cycles, init]
  | append_singleton ds d ih =>
    have hl : (ds ++ [d]).length = ds.length + 1 := by simp
    have ih1 := ih (fun x hx => hid x (List.mem_append_left _ hx)) (by omega)
    have ht := next_cycle_total ds d hid (by omega)
    rw [run_granted_snoc, (process_sample_signal true d _).2, ht, ih1]
    rw [if_neg (by omega)]

/-! ## Bits of the event group -/

theorem all_sensors_ready_iff (b : Nat) :
    b &&& ALL_SENSORS_READY = ALL_SENSORS_READY ↔
      (b.testBit 0 = true ∧ b.testBit 1 = true ∧ b.testBit 2 = true) := by
  have e7 : ALL_SENSORS_READY = 7 := by decide
  rw [e7]
  constructor
  · intro h
    have h0 := congrArg (fun x => Nat.testBit x 0) h
    have h1 := congrArg (fun x => Nat.testBit x 1) h
    have h2 := congrArg (fun x => Nat.testBit x 2) h
    simp only [Nat.testBit_and] at h0 h1 h2
    have t0 : Nat.testBit 7 0 = true := by decide
    have t1 : Nat.testBit 7 1 = true := by decide
    have t2 : Nat.testBit 7 2 = true := by decide
    rw [t0] at h0; rw [t1] at h1; rw [t2] at h2
    simp only [Bool.and_true] at h0 h1 h2
    exact ⟨h0, h1, h2⟩
  · rintro ⟨h0, h1, h2⟩
    apply Nat.eq_of_testBit_eq
    intro i
    rw [Nat.testBit_and]
    match i with
    | 0 => rw [h0, Bool.true_and]
    | 1 => rw [h1, Bool.true_and]
    | 2 => rw [h2, Bool.true_and]
    | k + 3 =>
      have : Nat.testBit 7 (k + 3) = false := by
        simp [Nat.testBit_succ]
      rw [this, Bool.and_false]

/-- Setting or clearing `PROCESSING_DONE_BIT` does not touch bits 0 to 2. -/
theorem done_bit_apart (e i : Nat) (hi : i < 3) :
    (e ||| PROCESSING_DONE_BIT).testBit i = e.testBit i ∧
    (e ^^^ (e &&& PROCESSING_DONE_BIT)).testBit i = e.testBit i := by
  have e8 : PROCESSING_DONE_BIT = 8 := by decide
  rw [e8]
  have t0 : Nat.testBit 8 0 = false := by decide
  have t1 : Nat.testBit 8 1 = false := by decide
  have t2 : Nat.testBit 8 2 = false := by decide
  interval_cases i <;>
    simp only [Nat.testBit_or, Nat.testBit_xor, Nat.testBit_and, t0, t1, t2, Bool.or_false,
      Bool.and_false, Bool.xor_false, and_self]

theorem sensor_bits (e : Nat) :
    ((e ||| SENSOR_1_READY_BIT).testBit 0 = true ∧
      (e ||| SENSOR_1_READY_BIT).testBit 1 = e.testBit 1 ∧
      (e ||| SENSOR_1_READY_BIT).testBit 2 = e.testBit 2) ∧
    ((e ||| SENSOR_2_READY_BIT).testBit 0 = e.testBit 0 ∧
      (e ||| SENSOR_2_READY_BIT).testBit 1 = true ∧
      (e ||| SENSOR_2_READY_BIT).testBit 2 = e.testBit 2) ∧
    ((e ||| SENSOR_3_READY_BIT).testBit 0 = e.testBit 0 ∧
      (e ||| SENSOR_3_READY_BIT).testBit 1 = e.testBit 1 ∧
      (e ||| SENSOR_3_READY_BIT).testBit 2 = true) := by
  have e1 : SENSOR_1_READY_BIT = 1 := by decide
  have e2 : SENSOR_2_READY_BIT = 2 := by decide
  have e3 : SENSOR_3_READY_BIT = 4 := by decide
  have a0 : Nat.testBit 1 0 = true := by decide
  have a1 : Nat.testBit 1 1 = false := by decide
  have a2 : Nat.testBit 1 2 = false := by decide
  have b0 : Nat.testBit 2 0 = false := by decide
  have b1 : Nat.testBit 2 1 = true := by decide
  have b2 : Nat.testBit 2 2 = false := by decide
  have c0 : Nat.testBit 4 0 = false := by decide
  have c1 : Nat.testBit 4 1 = false := by decide
  have c2 : Nat.testBit 4 2 = true := by decide
  rw [e1, e2, e3]
  simp only [Nat.testBit_or, a0, a1, a2, b0, b1, b2, c0, c1, c2, Bool.or_false, Bool.or_true,
    and_self]

theorem sensor_send_events (d : sensor_data_t F) (ms : Nat) (s : State F) :
    (sensor_send d ms s).1.system_events = s.system_events := by
  simp [sensor_send]

theorem data_processor_iter_events (limiter_ok mutex_ok : Bool) (s : State F) :
    (data_processor_iter limiter_ok mutex_ok s).1.system_events = s.system_events ∨
    (data_processor_iter limiter_ok mutex_ok s).1.system_events
      = s.system_events ||| PROCESSING_DONE_BIT := by
  unfold data_processor_iter
  cases hq : s.sensor_queue with
  | nil => simp [xQueueReceive]
  | cons d rest =>
    simp only [xQueueReceive]
    cases limiter_ok with
    | false => simp [process_sample]
    | true =>
      rw [(process_sample_signal mutex_ok d _).2]
      split_ifs
      · right; rfl
      · left; rfl

theorem display_iter_events (mutex_ok : Bool) (s : State F) :
    (display_iter mutex_ok s).1.system_events = s.system_events ∨
    (display_iter mutex_ok s).1.system_events
      = s.system_events ^^^ (s.system_events &&& PROCESSING_DONE_BIT) := by
  cases mutex_ok <;>
    simp only [display_iter, xEventGroupWaitBits, if_true] <;>
    split_ifs <;> simp

/-- The wait that opens an iteration of the reporter: the value it returns is
the event group at the call, and the event group afterwards is the one
`xEventGroupWaitBits` leaves. -/
theorem display_iter_wait (mutex_ok : Bool) (s : State F) :
    (display_iter mutex_ok s).2.head?
      = some (Call.wait_bits PROCESSING_DONE_BIT s.system_events) ∧
    (display_iter mutex_ok s).1.system_events
      = (xEventGroupWaitBits s.system_events PROCESSING_DONE_BIT true false).2 := by
  cases mutex_ok <;> simp [display_iter, xEventGroupWaitBits] <;> split_ifs <;> rfl

/-- Bits 0 to 2 are the same before and after a change of the done bit. -/
theorem low_bits_of_done_change (e f : Nat)
    (h : f = e ∨ f = e ||| PROCESSING_DONE_BIT ∨ f = e ^^^ (e &&& PROCESSING_DONE_BIT)) :
    f.testBit 0 = e.testBit 0 ∧ f.testBit 1 = e.testBit 1 ∧ f.testBit 2 = e.testBit 2 := by
  rcases h with rfl | rfl | rfl
  · exact ⟨rfl, rfl, rfl⟩
  · exact ⟨(done_bit_apart e 0 (by omega)).1, (done_bit_apart e 1 (by omega)).1,
      (done_bit_apart e 2 (by omega)).1⟩
  · exact ⟨(done_bit_apart e 0 (by omega)).2, (done_bit_apart e 1 (by omega)).2,
      (done_bit_apart e 2 (by omega)).2⟩

theorem processor_barrier_spec (y : Sys F) :
    (y.st.system_events &&& ALL_SENSORS_READY = ALL_SENSORS_READY →
      processor_barrier y = { y with processor_in_loop := true }) ∧
    (y.st.system_events &&& ALL_SENSORS_READY ≠ ALL_SENSORS_READY →
      processor_barrier y = y) := by
  constructor
  · intro h
    simp [processor_barrier, waitConditionMet, xEventGroupWaitBits, h]
  · intro h
    simp [processor_barrier, waitConditionMet, h]

theorem step_invariant (t : Task) (o : Oracle) (y : Sys F) (h : barrier_invariant y) :
    barrier_invariant (step t o y) := by
  obtain ⟨h0, h1, h2, hp⟩ := h
  obtain ⟨⟨a0, a1, a2⟩, ⟨b0, b1, b2⟩, ⟨c0, c1, c2⟩⟩ := sensor_bits y.st.system_events
  cases t with
  | temperature =>
    simp only [step, temperature_sensor_task]
    split_ifs with g
    · simp only [barrier_invariant, temperature_sensor_iter, sensor_send_events]
      exact ⟨h0, h1, h2, hp⟩
    · simp only [barrier_invariant, sensor_ready, xEventGroupSetBits, a0, a1, a2]
      exact ⟨fun _ => trivial, h1, h2, fun hx => ⟨trivial, (hp hx).2⟩⟩
  | humidity =>
    simp only [step, humidity_sensor_task]
    split_ifs with g
    · simp only [barrier_invariant, humidity_sensor_iter, sensor_send_events]
      exact ⟨h0, h1, h2, hp⟩
    · simp only [barrier_invariant, sensor_ready, xEventGroupSetBits, b0, b1, b2]
      exact ⟨h0, fun _ => trivial, h2, fun hx => ⟨(hp hx).1, trivial, (hp hx).2.2⟩⟩
  | pressure =>
    simp only [step, pressure_sensor_task]
    split_ifs with g
    · simp only [barrier_invariant, pressure_sensor_iter, sensor_send_events]
      exact ⟨h0, h1, h2, hp⟩
    · simp only [barrier_invariant, sensor_ready, xEventGroupSetBits, c0, c1, c2]
      exact ⟨h0, h1, fun _ => trivial, fun hx => ⟨(hp hx).1, (hp hx).2.1, trivial⟩⟩
  | processor =>
    simp only [step, data_processor_task]
    split_ifs with g
    · obtain ⟨e0, e1, e2⟩ := low_bits_of_done_change y.st.system_events
        (data_processor_iter (limiter_available y.st.counting_semaphore) o.mutex_ok
          y.st).1.system_events
        (by
          rcases data_processor_iter_events (limiter_available y.st.counting_semaphore)
            o.mutex_ok y.st with e | e
          · exact Or.inl e
          · exact Or.inr (Or.inl e))
      simp only [barrier_invariant, e0, e1, e2]
      exact ⟨h0, h1, h2, hp⟩
    · by_cases hc : y.st.system_events &&& ALL_SENSORS_READY = ALL_SENSORS_READY
      · rw [(processor_barrier_spec y).1 hc]
        simp only [barrier_invariant]
        exact ⟨h0, h1, h2, fun _ => (all_sensors_ready_iff _).mp hc⟩
      · rw [(processor_barrier_spec y).2 hc]
        exact ⟨h0, h1, h2, hp⟩
  | display =>
    simp only [step, display_task]
    obtain ⟨e0, e1, e2⟩ := low_bits_of_done_change y.st.system_events
      (display_iter o.mutex_ok y.st).1.system_events
      (by
        rcases display_iter_events o.mutex_ok y.st with e | e
        · exact Or.inl e
        · exact Or.inr (Or.inr e))
    simp only [barrier_invariant, e0, e1, e2]
    exact ⟨h0, h1, h2, hp⟩

theorem run_snoc (y : Sys F) (schedule : List (Task × Oracle)) (a : Task × Oracle) :
    run y (schedule ++ [a]) = step a.1 a.2 (run y schedule) := by
  simp [run, List.foldl_append]

theorem run_invariant (schedule : List (Task × Oracle)) :
    barrier_invariant (run (init_sys : Sys F) schedule) := by
  induction schedule using List.reverseRecOn with
  | nil => simp [run, barrier_invariant, init_sys, init]
  | append_singleton sch a ih =>
    rw [run_snoc]
    exact step_invariant a.1 a.2 _ ih

/-! ## A cycle of the aggregator, statement by statement -/

/-- The `switch` is its two statements, one after the other. -/
theorem accumulate_split (d : sensor_data_t F) (s : State F) :
    accumulate d s = accumulate_count d (accumulate_sum d s) := by
  unfold accumulate accumulate_count accumulate_sum
  split_ifs <;> rfl

theorem accumulate_sum_frame (d : sensor_data_t F) (s : State F) :
    (accumulate_sum d s).global_stats = s.global_stats ∧
    counts_total (accumulate_sum d s) = counts_total s := by
  unfold accumulate_sum counts_total
  split_ifs <;> exact ⟨rfl, rfl⟩

theorem accumulate_count_frame (d : sensor_data_t F) (s : State F) :
    (accumulate_count d s).global_stats = s.global_stats ∧
    (¬ (d.sensor_id = 1 ∨ d.sensor_id = 2 ∨ d.sensor_id = 3) →
      counts_total (accumulate_count d s) = counts_total s) := by
  unfold accumulate_count counts_total
  split_ifs with h1 h2 h3
  · exact ⟨rfl, fun h => absurd (Or.inl h1) h⟩
  · exact ⟨rfl, fun h => absurd (Or.inr (Or.inl h2)) h⟩
  · exact ⟨rfl, fun h => absurd (Or.inr (Or.inr h3)) h⟩
  · exact ⟨rfl, fun _ => rfl⟩

theorem display_iter_frame (mutex_ok : Bool) (s : State F) :
    (display_iter mutex_ok s).1.global_stats = s.global_stats ∧
    counts_total (display_iter mutex_ok s).1 = counts_total s := by
  cases mutex_ok <;> simp [display_iter, counts_total]

/-- One move keeps: while no count has been incremented since the last write of
`global_stats`, the stored total is the sum of the counts. -/
theorem fine_step_written (m : Move F) (y : Fine F)
    (h : y.unwritten = false → y.st.global_stats.total_samples = counts_total y.st) :
    (fine_step m y).unwritten = false →
      (fine_step m y).st.global_stats.total_samples = counts_total (fine_step m y).st := by
  cases m with
  | display mutex_ok =>
    simp only [fine_step]
    intro hu
    rw [(display_iter_frame mutex_ok y.st).1, (display_iter_frame mutex_ok y.st).2]
    exact h hu
  | processor d limiter_ok mutex_ok =>
    simp only [fine_step, processor_move]
    cases hpc : y.pc with
    | idle =>
      simp only
      split_ifs
      · intro hu; exact h hu
      · exact h
    | taken e =>
      simp only
      intro hu
      rw [(accumulate_sum_frame e y.st).1, (accumulate_sum_frame e y.st).2]
      exact h hu
    | summed e =>
      simp only [Bool.or_eq_false_iff, decide_eq_false_iff_not]
      intro hu
      rw [(accumulate_count_frame e y.st).1, (accumulate_count_frame e y.st).2 hu.2]
      exact h hu.1
    | counted =>
      simp only
      cases mutex_ok with
      | true =>
        intro _
        simp only [publish_stats, if_true, update_stats_total]
        rfl
      | false =>
        simp only [publish_stats]
        intro hu
        exact h (by simpa using hu)
    | stored =>
      simp only
      intro hu
      rw [(signal_done_frame _).1]
      have hc : counts_total (signal_done
          { y.st with
            counting_semaphore := xSemaphoreGive LIMITER_MAX y.st.counting_semaphore }).1
          = counts_total y.st := by
        obtain ⟨_, _, _, _, _, _, c1, c2, c3⟩ := signal_done_frame
          { y.st with
            counting_semaphore := xSemaphoreGive LIMITER_MAX y.st.counting_semaphore }
        simp only [counts_total, c1, c2, c3]
      rw [hc]
      exact h hu

theorem fine_run_snoc (y : Fine F) (ms : List (Move F)) (m : Move F) :
    fine_run y (ms ++ [m]) = fine_step m (fine_run y ms) := by
  simp [fine_run, List.foldl_append]

theorem fine_run_append (y : Fine F) (ms ns : List (Move F)) :
    fine_run y (ms ++ ns) = fine_run (fine_run y ms) ns := by
  simp [fine_run, List.foldl_append]

theorem fine_run_written (ms : List (Move F)) :
    (fine_run (fine_init : Fine F) ms).unwritten = false →
      (fine_run (fine_init : Fine F) ms).st.global_stats.total_samples
        = counts_total (fine_run (fine_init : Fine F) ms).st := by
  induction ms using List.reverseRecOn with
  | nil => intro _; simp [fine_run, fine_init, init, counts_total]
  | append_singleton ms m ih =>
    rw [fine_run_snoc]
    exact fine_step_written m _ ih

/-- The moves of a whole cycle, run from the aggregator waiting on the queue,
do what `process_sample` does, and leave the aggregator waiting on the queue. -/
theorem fine_run_cycle (c : Cycle F) (s : State F) (u : Bool) :
    fine_run { st := s, pc := Pc.idle, unwritten := u } (cycle_moves c)
      = { st := (process_sample c.limiter_ok c.mutex_ok c.data s).1
          pc := Pc.idle
          unwritten :=
            if c.limiter_ok then
              (if c.mutex_ok then false
               else u || decide (c.data.sensor_id = 1 ∨ c.data.sensor_id = 2
                                  ∨ c.data.sensor_id = 3))
            else u } := by
  rcases c with ⟨d, lo, mo⟩
  cases lo with
  | false =>
    simp [cycle_moves, fine_run, fine_step, processor_move, process_sample]
  | true =>
    simp only [cycle_moves, if_true, fine_run, List.replicate, List.foldl_cons, List.foldl_nil,
      fine_step, processor_move, process_sample, accumulate_split]

theorem cycles_moves_cons (c : Cycle F) (cs : List (Cycle F)) :
    cycles_moves (c :: cs) = cycle_moves c ++ cycles_moves cs := rfl

/-- Whole cycles, statement by statement, end where `run_cycles` ends, with
the aggregator waiting on the queue; and nothing is left unwritten when every
cycle that obtained the limiter obtained the mutex. -/
theorem fine_run_cycles (cs : List (Cycle F)) (s : State F) (u : Bool) :
    (fine_run { st := s, pc := Pc.idle, unwritten := u } (cycles_moves cs)).st
      = run_cycles s cs ∧
    (fine_run { st := s, pc := Pc.idle, unwritten := u } (cycles_moves cs)).pc = Pc.idle ∧
    (u = false → (∀ c ∈ cs, c.limiter_ok = true → c.mutex_ok = true) →
      (fine_run { st := s, pc := Pc.idle, unwritten := u } (cycles_moves cs)).unwritten
        = false) := by
  induction cs generalizing s u with
  | nil => exact ⟨rfl, rfl, fun hu _ => hu⟩
  | cons c cs ih =>
    rw [cycles_moves_cons, fine_run_append, fine_run_cycle]
    obtain ⟨i1, i2, i3⟩ := ih (process_sample c.limiter_ok c.mutex_ok c.data s).1
      (if c.limiter_ok then
        (if c.mutex_ok then false
         else u || decide (c.data.sensor_id = 1 ∨ c.data.sensor_id = 2
                            ∨ c.data.sensor_id = 3))
       else u)
    refine ⟨?_, i2, ?_⟩
    · rw [i1]; simp [run_cycles]
    · intro hu hall
      apply i3
      · have hc := hall c (List.mem_cons_self _ _)
        cases hl : c.limiter_ok with
        | false => simpa using hu
        | true => simp [hc hl]
      · exact fun x hx => hall x (List.mem_cons_of_mem _ hx)

/-! ## The statistics store as the reporter sees it -/

/-- C1, as stated, fails, in two ways. One cycle on a temperature sample that
obtains the limiter but times out on `stats_mutex` leaves `temp_count = 1`
while the snapshot the reporter then takes under the mutex still shows
`total_samples = 0`. And with no take timed out at all: once the aggregator
has run the `switch` on its first sample and stands before its take of
`stats_mutex` (line 215), the reporter takes the mutex, and its snapshot shows
`total_samples = 0` while `temp_count = 1`. -/
theorem snapshot_total_stale :
    let s := run_cycles (init : State ℚ)
      [{ data := { sensor_id := 1, value := 25, timestamp := 0 },
         limiter_ok := true, mutex_ok := false }]
    let y := fine_run (fine_init : Fine ℚ)
      (List.replicate 3 (Move.processor { sensor_id := 1, value := 25, timestamp := 0 }
        true true))
    ((published (display_iter true s).2).map (fun g => g.total_samples) = [0] ∧
      s.temp_count + s.humidity_count + s.pressure_count = 1) ∧
    (y.pc = Pc.counted ∧
      (published (display_iter true y.st).2).map (fun g => g.total_samples) = [0] ∧
      y.st.temp_count + y.st.humidity_count + y.st.pressure_count = 1) := by
  decide

/-- C1, amended: from the zeroed state, after any moves of the aggregator,
statement by statement, and of the reporter, with any sample ids and any
outcomes of the takes of the limiter and of `stats_mutex`: every snapshot the
reporter publishes at a moment when no count has been incremented since the
last write of `global_stats` has `total_samples` equal to
`temp_count + humidity_count + pressure_count` at that moment. Such is every
moment between whole cycles when every cycle that obtained the limiter also
obtained `stats_mutex`. -/
theorem snapshot_total_eq_counts_when_written (ms : List (Move F)) (display_mutex_ok : Bool)
    (g : shared_stats_t F) (cs : List (Cycle F)) :
    ((fine_run (fine_init : Fine F) ms).unwritten = false →
      g ∈ published (display_iter display_mutex_ok (fine_run (fine_init : Fine F) ms).st).2 →
      g.total_samples
        = (fine_run (fine_init : Fine F) ms).st.temp_count
          + (fine_run (fine_init : Fine F) ms).st.humidity_count
          + (fine_run (fine_init : Fine F) ms).st.pressure_count) ∧
    ((∀ c ∈ cs, c.limiter_ok = true → c.mutex_ok = true) →
      (fine_run (fine_init : Fine F) (cycles_moves cs)).unwritten = false ∧
      (fine_run (fine_init : Fine F) (cycles_moves cs)).pc = Pc.idle ∧
      (fine_run (fine_init : Fine F) (cycles_moves cs)).st = run_cycles init cs) := by
  constructor
  · intro hu hg
    have ht := fine_run_written ms hu
    cases display_mutex_ok with
    | false => simp [display_iter, published] at hg
    | true =>
      simp [display_iter, published] at hg
      rw [hg, ht, counts_total]
  · intro hall
    obtain ⟨h1, h2, h3⟩ := fine_run_cycles cs (init : State F) false
    exact ⟨h3 rfl hall, h2, h1⟩

theorem snapshot_total_eq_counts_when_written_witness :
    (fine_run (fine_init : Fine ℚ)
      (cycle_moves (granted (⟨1, 25, 0⟩ : sensor_data_t ℚ))
        ++ [Move.display false, Move.processor ⟨2, 60, 1⟩ true true,
            Move.processor ⟨2, 60, 1⟩ true true])).unwritten = false ∧
    (⟨25, 0, 0, 1⟩ : shared_stats_t ℚ).total_samples
      = (fine_run (fine_init : Fine ℚ)
          (cycle_moves (granted (⟨1, 25, 0⟩ : sensor_data_t ℚ))
            ++ [Move.display false, Move.processor ⟨2, 60, 1⟩ true true,
                Move.processor ⟨2, 60, 1⟩ true true])).st.temp_count
        + (fine_run (fine_init : Fine ℚ)
          (cycle_moves (granted (⟨1, 25, 0⟩ : sensor_data_t ℚ))
            ++ [Move.display false, Move.processor ⟨2, 60, 1⟩ true true,
                Move.processor ⟨2, 60, 1⟩ true true])).st.humidity_count
        + (fine_run (fine_init : Fine ℚ)
          (cycle_moves (granted (⟨1, 25, 0⟩ : sensor_data_t ℚ))
            ++ [Move.display false, Move.processor ⟨2, 60, 1⟩ true true,
                Move.processor ⟨2, 60, 1⟩ true true])).st.pressure_count ∧
    (fine_run (fine_init : Fine ℚ)
      (cycles_moves [granted (⟨1, 25, 0⟩ : sensor_data_t ℚ), ⟨⟨2, 60, 1⟩, false, false⟩])).st
      = run_cycles init [granted (⟨1, 25, 0⟩ : sensor_data_t ℚ), ⟨⟨2, 60, 1⟩, false, false⟩] :=
  have hu : (fine_run (fine_init : Fine ℚ)
      (cycle_moves (granted (⟨1, 25, 0⟩ : sensor_data_t ℚ))
        ++ [Move.display false, Move.processor ⟨2, 60, 1⟩ true true,
            Move.processor ⟨2, 60, 1⟩ true true])).unwritten = false := by decide
  have hg : (⟨25, 0, 0, 1⟩ : shared_stats_t ℚ)
      ∈ published (display_iter true (fine_run (fine_init : Fine ℚ)
          (cycle_moves (granted (⟨1, 25, 0⟩ : sensor_data_t ℚ))
            ++ [Move.display false, Move.processor ⟨2, 60, 1⟩ true true,
                Move.processor ⟨2, 60, 1⟩ true true])).st).2 := by
    simp [display_iter, published, fine_run, fine_step, processor_move, cycle_moves, granted,
      fine_init, publish_stats, signal_done, accumulate_sum, accumulate_count, update_stats,
      init, xSemaphoreTake, xSemaphoreGive, LIMITER_MAX, List.replicate]
  have hall : ∀ c ∈ [granted (⟨1, 25, 0⟩ : sensor_data_t ℚ), ⟨⟨2, 60, 1⟩, false, false⟩],
      c.limiter_ok = true → c.mutex_ok = true := by
    intro c hc
    simp [granted] at hc
    rcases hc with rfl | rfl <;> simp
  ⟨hu,
   (snapshot_total_eq_counts_when_written _ true _ []).1 hu hg,
   ((snapshot_total_eq_counts_when_written [] true (⟨25, 0, 0, 1⟩ : shared_stats_t ℚ)
      [granted (⟨1, 25, 0⟩ : sensor_data_t ℚ), ⟨⟨2, 60, 1⟩, false, false⟩]).2 hall).2.2⟩

/-! ## One aggregation cycle -/

/-- C2, as stated, fails at the top of the `uint16_t` range: with
`temp_count = 65535` a cycle on a temperature sample leaves `temp_count = 0`,
not `65536`. -/
theorem count_wraps_at_uint16_max :
    (process_sample true true ({ sensor_id := 1, value := 25, timestamp := 0 } : sensor_data_t ℚ)
      { (init : State ℚ) with temp_count := 65535 }).1.temp_count = 0 ∧
    ({ (init : State ℚ) with temp_count := 65535 }).temp_count + 1 = 65536 := by
  decide

/-- C2, amended: for a dequeued sample with `sensor_id` in `1, 2, 3` whose
source count is below `65535`, a cycle that obtains the limiter adds the value
to that source's sum and `1` to that source's count, and leaves the other two
sums and counts as they were, whether or not the mutex is obtained. -/
theorem process_sample_one_pair (mutex_ok : Bool) (d : sensor_data_t F) (s : State F)
    (h1 : d.sensor_id = 1 → s.temp_count < 65535)
    (h2 : d.sensor_id = 2 → s.humidity_count < 65535)
    (h3 : d.sensor_id = 3 → s.pressure_count < 65535) :
    (d.sensor_id = 1 →
      (process_sample true mutex_ok d s).1.temp_sum = s.temp_sum + d.value ∧
      (process_sample true mutex_ok d s).1.temp_count = s.temp_count + 1 ∧
      (process_sample true mutex_ok d s).1.humidity_sum = s.humidity_sum ∧
      (process_sample true mutex_ok d s).1.humidity_count = s.humidity_count ∧
      (process_sample true mutex_ok d s).1.pressure_sum = s.pressure_sum ∧
      (process_sample true mutex_ok d s).1.pressure_count = s.pressure_count) ∧
    (d.sensor_id = 2 →
      (process_sample true mutex_ok d s).1.humidity_sum = s.humidity_sum + d.value ∧
      (process_sample true mutex_ok d s).1.humidity_count = s.humidity_count + 1 ∧
      (process_sample true mutex_ok d s).1.temp_sum = s.temp_sum ∧
      (process_sample true mutex_ok d s).1.temp_count = s.temp_count ∧
      (process_sample true mutex_ok d s).1.pressure_sum = s.pressure_sum ∧
      (process_sample true mutex_ok d s).1.pressure_count = s.pressure_count) ∧
    (d.sensor_id = 3 →
      (process_sample true mutex_ok d s).1.pressure_sum = s.pressure_sum + d.value ∧
      (process_sample true mutex_ok d s).1.pressure_count = s.pressure_count + 1 ∧
      (process_sample true mutex_ok d s).1.temp_sum = s.temp_sum ∧
      (process_sample true mutex_ok d s).1.temp_count = s.temp_count ∧
      (process_sample true mutex_ok d s).1.humidity_sum = s.humidity_sum ∧
      (process_sample true mutex_ok d s).1.humidity_count = s.humidity_count) := by
  obtain ⟨a1, a2, a3, a4, a5, a6⟩ := process_sample_accumulators mutex_ok d s
  rw [a1, a2, a3, a4, a5, a6]
  refine ⟨fun e => ?_, fun e => ?_, fun e => ?_⟩
  · have := h1 e
    simp [accumulate, e]
    omega
  · have := h2 e
    simp [accumulate, e]
    omega
  · have := h3 e
    simp [accumulate, e]
    omega

theorem process_sample_one_pair_witness :
    (process_sample true false ({ sensor_id := 2, value := 60, timestamp := 7 } : sensor_data_t ℚ)
        init).1.humidity_sum = (init : State ℚ).humidity_sum + 60 ∧
    (process_sample true false ({ sensor_id := 2, value := 60, timestamp := 7 } : sensor_data_t ℚ)
        init).1.humidity_count = (init : State ℚ).humidity_count + 1 :=
  have h := (process_sample_one_pair false
    ({ sensor_id := 2, value := 60, timestamp := 7 } : sensor_data_t ℚ) init
    (by decide) (by decide) (by decide)).2.1 rfl
  ⟨h.1, h.2.1⟩

/-- C3: when the take of `stats_mutex` times out, `global_stats` is, field for
field, what it was before the cycle, and the three sums and three counts are
those of the same cycle with the mutex obtained. -/
theorem mutex_timeout_keeps_store (d : sensor_data_t F) (s : State F) :
    (process_sample true false d s).1.global_stats.temperature_avg
      = s.global_stats.temperature_avg ∧
    (process_sample true false d s).1.global_stats.humidity_avg
      = s.global_stats.humidity_avg ∧
    (process_sample true false d s).1.global_stats.pressure_avg
      = s.global_stats.pressure_avg ∧
    (process_sample true false d s).1.global_stats.total_samples
      = s.global_stats.total_samples ∧
    (process_sample true false d s).1.temp_sum = (process_sample true true d s).1.temp_sum ∧
    (process_sample true false d s).1.humidity_sum
      = (process_sample true true d s).1.humidity_sum ∧
    (process_sample true false d s).1.pressure_sum
      = (process_sample true true d s).1.pressure_sum ∧
    (process_sample true false d s).1.temp_count = (process_sample true true d s).1.temp_count ∧
    (process_sample true false d s).1.humidity_count
      = (process_sample true true d s).1.humidity_count ∧
    (process_sample true false d s).1.pressure_count
      = (process_sample true true d s).1.pressure_count := by
  obtain ⟨a1, a2, a3, a4, a5, a6⟩ := process_sample_accumulators false d s
  obtain ⟨b1, b2, b3, b4, b5, b6⟩ := process_sample_accumulators true d s
  have hg : (process_sample true false d s).1.global_stats = s.global_stats := by
    simp only [process_sample, publish_stats, if_true, signal_done_frame]
    simp [accumulate_frame]
  rw [hg, a1, a2, a3, a4, a5, a6, b1, b2, b3, b4, b5, b6]
  simp

/-- C4: when the take of `counting_semaphore` times out, the rest of the cycle
changes nothing: the state after the iteration is the state before it with the
sample removed from the front of the queue (accumulators, `global_stats`, event
bits, limiter count and the remaining queue untouched), and the only calls are
the failed take and the warning. -/
theorem limiter_timeout_skips_cycle (mutex_ok : Bool) (d : sensor_data_t F)
    (rest : List (sensor_data_t F)) (s : State F) :
    (process_sample false mutex_ok d s).1 = s ∧
    (process_sample false mutex_ok d s).2
      = [Call.take_counting false, Call.warn Warning.semaforo_no_disponible] ∧
    (data_processor_iter false mutex_ok { s with sensor_queue := d :: rest }).1
      = { s with sensor_queue := rest } ∧
    (data_processor_iter false mutex_ok { s with sensor_queue := d :: rest }).2
      = [Call.take_counting false, Call.warn Warning.semaforo_no_disponible] := by
  simp [process_sample, data_processor_iter, xQueueReceive]

/-- C5: in a cycle that obtained the limiter (so its count was positive, and at
most the maximum `2`), `xSemaphoreGive(counting_semaphore)` is called exactly
once, with the mutex obtained or not, and the count after the cycle is the
count before it. -/
theorem limiter_given_back_once (mutex_ok : Bool) (d : sensor_data_t F) (s : State F)
    (hpos : 0 < s.counting_semaphore) (hmax : s.counting_semaphore ≤ LIMITER_MAX) :
    gives_of_limiter (process_sample true mutex_ok d s).2 = 1 ∧
    (process_sample true mutex_ok d s).1.counting_semaphore = s.counting_semaphore := by
  constructor
  · cases mutex_ok <;>
      simp only [process_sample, publish_stats, if_true, signal_done] <;>
      split_ifs <;> simp [gives_of_limiter, List.countP_cons]
  · rw [process_sample_limiter]
    simp only [xSemaphoreTake, xSemaphoreGive, LIMITER_MAX, if_true] at *
    split_ifs <;> omega

theorem limiter_given_back_once_witness :
    0 < (init : State ℚ).counting_semaphore ∧
    (init : State ℚ).counting_semaphore ≤ LIMITER_MAX ∧
    gives_of_limiter (process_sample true false
      ({ sensor_id := 3, value := 1000, timestamp := 9 } : sensor_data_t ℚ) init).2 = 1 ∧
    (process_sample true false
      ({ sensor_id := 3, value := 1000, timestamp := 9 } : sensor_data_t ℚ) init).1.counting_semaphore
      = (init : State ℚ).counting_semaphore :=
  ⟨by decide, by decide,
    limiter_given_back_once false _ init (by decide) (by decide)⟩

/-! ## The report trigger -/

/-- C6, as stated, fails: after ten aggregated samples `total_samples` is `10`;
in the next cycle the take of `stats_mutex` times out, `total_samples` is not
changed by the cycle, and the aggregator still calls
`xEventGroupSetBits(system_events, PROCESSING_DONE_BIT)`. -/
theorem trigger_set_with_total_unchanged :
    (run_cycles (init : State ℚ)
      (List.replicate 10 (granted { sensor_id := 1, value := 25, timestamp := 0 }))
      ).global_stats.total_samples = 10 ∧
    (process_sample true false ({ sensor_id := 2, value := 60, timestamp := 0 } : sensor_data_t ℚ)
      (run_cycles (init : State ℚ)
        (List.replicate 10 (granted { sensor_id := 1, value := 25, timestamp := 0 })))
      ).1.global_stats.total_samples = 10 ∧
    Call.set_bits PROCESSING_DONE_BIT ∈
      (process_sample true false ({ sensor_id := 2, value := 60, timestamp := 0 } : sensor_data_t ℚ)
        (run_cycles (init : State ℚ)
          (List.replicate 10 (granted { sensor_id := 1, value := 25, timestamp := 0 })))).2 := by
  decide

/-- C6, amended: the aggregator sets `PROCESSING_DONE_BIT` only in a cycle that
obtained the limiter and at whose end `total_samples` is positive and
divisible by `10`; and in a cycle that obtained both the limiter and
`stats_mutex` it sets the bit exactly when the recomputed `total_samples`,
the sum of the three counts, is positive and divisible by `10`. -/
theorem trigger_set_on_multiple_of_ten (limiter_ok mutex_ok : Bool) (d : sensor_data_t F)
    (s : State F) :
    (Call.set_bits PROCESSING_DONE_BIT ∈ (process_sample limiter_ok mutex_ok d s).2 →
      limiter_ok = true ∧
      0 < (process_sample limiter_ok mutex_ok d s).1.global_stats.total_samples ∧
      (process_sample limiter_ok mutex_ok d s).1.global_stats.total_samples % 10 = 0) ∧
    (Call.set_bits PROCESSING_DONE_BIT ∈ (process_sample true true d s).2 ↔
      (0 < (process_sample true true d s).1.global_stats.total_samples ∧
       (process_sample true true d s).1.global_stats.total_samples % 10 = 0)) ∧
    (process_sample true true d s).1.global_stats.total_samples
      = (process_sample true true d s).1.temp_count
        + (process_sample true true d s).1.humidity_count
        + (process_sample true true d s).1.pressure_count := by
  refine ⟨?_, (process_sample_signal true d s).1, ?_⟩
  · cases limiter_ok with
    | false => simp [process_sample]
    | true =>
      intro h
      exact ⟨rfl, (process_sample_signal mutex_ok d s).1.mp h⟩
  · rw [process_sample_total, counts_total]

theorem trigger_set_on_multiple_of_ten_witness :
    Call.set_bits PROCESSING_DONE_BIT ∈
      (process_sample true true ({ sensor_id := 3, value := 1000, timestamp := 0 } : sensor_data_t ℚ)
        { (init : State ℚ) with temp_count := 9 }).2 ∧
    0 < (process_sample true true ({ sensor_id := 3, value := 1000, timestamp := 0 } : sensor_data_t ℚ)
        { (init : State ℚ) with temp_count := 9 }).1.global_stats.total_samples :=
  have h : Call.set_bits PROCESSING_DONE_BIT ∈
      (process_sample true true ({ sensor_id := 3, value := 1000, timestamp := 0 } : sensor_data_t ℚ)
        { (init : State ℚ) with temp_count := 9 }).2 := by decide
  ⟨h, ((trigger_set_on_multiple_of_ten true true _ _).1 h).2.1⟩

/-! ## The reporter -/

/-- C7: an iteration of the reporter leaves `global_stats` as it was; when it
obtains `stats_mutex` the one snapshot it publishes is `global_stats`, field
for field; and a second iteration right after publishes the same snapshot. -/
theorem display_reads_only (mutex_ok : Bool) (s : State F) :
    (display_iter mutex_ok s).1.global_stats = s.global_stats ∧
    published (display_iter true s).2 = [s.global_stats] ∧
    published (display_iter true (display_iter mutex_ok s).1).2
      = published (display_iter true s).2 := by
  cases mutex_ok <;> simp [display_iter, published]

/-! ## End-to-end counts -/

/-- C8: from the zeroed state, after cycles that all obtain both takes on
samples with ids in `1, 2, 3` and fewer than `65536` samples per source, each
count is the number of samples of its source and `total_samples` is the
length of the sequence. -/
theorem aggregate_counts (ds : List (sensor_data_t F))
    (hid : ∀ d ∈ ds, d.sensor_id = 1 ∨ d.sensor_id = 2 ∨ d.sensor_id = 3)
    (h1 : samples_of 1 ds < 65536) (h2 : samples_of 2 ds < 65536)
    (h3 : samples_of 3 ds < 65536) :
    (run_cycles (init : State F) (ds.map granted)).temp_count = samples_of 1 ds ∧
    (run_cycles (init : State F) (ds.map granted)).humidity_count = samples_of 2 ds ∧
    (run_cycles (init : State F) (ds.map granted)).pressure_count = samples_of 3 ds ∧
    (run_cycles (init : State F) (ds.map granted)).global_stats.total_samples = ds.length := by
  obtain ⟨c1, c2, c3⟩ := run_granted_counts ds (init : State F)
    (by simp [init]) (by simp [init]) (by simp [init])
  refine ⟨?_, ?_, ?_, run_granted_total ds hid h1 h2 h3⟩
  · rw [c1]; simp only [init]; omega
  · rw [c2]; simp only [init]; omega
  · rw [c3]; simp only [init]; omega

theorem aggregate_counts_witness :
    (run_cycles (init : State ℚ)
      (([⟨1, 25, 0⟩, ⟨2, 60, 1⟩, ⟨3, 1000, 2⟩] : List (sensor_data_t ℚ)).map granted)).temp_count = 1 ∧
    (run_cycles (init : State ℚ)
      (([⟨1, 25, 0⟩, ⟨2, 60, 1⟩, ⟨3, 1000, 2⟩] : List (sensor_data_t ℚ)).map granted)).humidity_count = 1 ∧
    (run_cycles (init : State ℚ)
      (([⟨1, 25, 0⟩, ⟨2, 60, 1⟩, ⟨3, 1000, 2⟩] : List (sensor_data_t ℚ)).map granted)).pressure_count = 1 ∧
    (run_cycles (init : State ℚ)
      (([⟨1, 25, 0⟩, ⟨2, 60, 1⟩, ⟨3, 1000, 2⟩] : List (sensor_data_t ℚ)).map granted)
      ).global_stats.total_samples = 3 :=
  aggregate_counts ([⟨1, 25, 0⟩, ⟨2, 60, 1⟩, ⟨3, 1000, 2⟩] : List (sensor_data_t ℚ))
    (by decide) (by decide) (by decide) (by decide)

/-! ## Ten samples, then the report -/

/-- C9: from the zeroed state, with both takes obtained in every cycle and ids
in `1, 2, 3`: after any number `ds.length ≤ 9` of cycles the done bit is still
clear, the next cycle sets it exactly when it is the tenth, and after the tenth
the wait of the reporter finds its condition met, returns a value that has the
done bit, and leaves the done bit clear in the event group. -/
theorem trigger_after_ten (ds : List (sensor_data_t F)) (d : sensor_data_t F)
    (display_mutex_ok : Bool)
    (hid : ∀ x ∈ ds ++ [d], x.sensor_id = 1 ∨ x.sensor_id = 2 ∨ x.sensor_id = 3)
    (hlen : ds.length ≤ 9) :
    (run_cycles (init : State F) (ds.map granted)).system_events &&& PROCESSING_DONE_BIT = 0 ∧
    (Call.set_bits PROCESSING_DONE_BIT ∈
        (process_sample true true d (run_cycles (init : State F) (ds.map granted))).2
      ↔ ds.length = 9) ∧
    (ds.length = 9 →
      waitConditionMet
        (process_sample true true d (run_cycles (init : State F) (ds.map granted))).1.system_events
        PROCESSING_DONE_BIT false = true ∧
      (∃ v, (display_iter display_mutex_ok
              (process_sample true true d (run_cycles (init : State F) (ds.map granted))).1).2.head?
            = some (Call.wait_bits PROCESSING_DONE_BIT v) ∧
          v &&& PROCESSING_DONE_BIT = PROCESSING_DONE_BIT) ∧
      (display_iter display_mutex_ok
        (process_sample true true d (run_cycles (init : State F) (ds.map granted))).1
        ).1.system_events &&& PROCESSING_DONE_BIT = 0) := by
  have hclear := events_clear_before_ten ds (fun x hx => hid x (List.mem_append_left _ hx)) hlen
  have ht := next_cycle_total ds d hid (by omega)
  obtain ⟨hsig, hev⟩ := process_sample_signal true d (run_cycles (init : State F) (ds.map granted))
  rw [ht] at hsig hev
  refine ⟨by rw [hclear]; decide, ?_, ?_⟩
  · rw [hsig]
    omega
  · intro h9
    obtain ⟨w1, w2⟩ := display_iter_wait display_mutex_ok
      (process_sample true true d (run_cycles (init : State F) (ds.map granted))).1
    rw [w1, w2, hev, if_pos (by omega), hclear]
    exact ⟨by decide, ⟨_, rfl, by decide⟩, by decide⟩

theorem trigger_after_ten_witness :
    Call.set_bits PROCESSING_DONE_BIT ∈
        (process_sample true true (⟨1, 25, 9⟩ : sensor_data_t ℚ)
          (run_cycles (init : State ℚ)
            ((List.replicate 9 (⟨2, 60, 0⟩ : sensor_data_t ℚ)).map granted))).2
      ↔ (List.replicate 9 (⟨2, 60, 0⟩ : sensor_data_t ℚ)).length = 9 :=
  (trigger_after_ten (List.replicate 9 (⟨2, 60, 0⟩ : sensor_data_t ℚ)) ⟨1, 25, 9⟩ true
    (by decide) (by decide)).2.1

/-! ## The readiness barrier -/

/-- C10: in every state reached from start-up under any schedule, the
aggregator is in its main loop only if `system_events & ALL_SENSORS_READY`
equals `ALL_SENSORS_READY` and the three producers are past their readiness
signal; `ALL_SENSORS_READY` is exactly bits 0, 1 and 2; while one of the three
bits is clear no step of any task lets the aggregator past the barrier; and
with the three bits set the aggregator's step takes it past the barrier,
leaving the shared state as it was. -/
theorem barrier_releases_iff_all_ready (schedule : List (Task × Oracle)) (t : Task)
    (o : Oracle) (y : Sys F) (b : Nat) :
    ((run (init_sys : Sys F) schedule).processor_in_loop = true →
      (run (init_sys : Sys F) schedule).st.system_events &&& ALL_SENSORS_READY
        = ALL_SENSORS_READY ∧
      (run (init_sys : Sys F) schedule).temperature_in_loop = true ∧
      (run (init_sys : Sys F) schedule).humidity_in_loop = true ∧
      (run (init_sys : Sys F) schedule).pressure_in_loop = true) ∧
    (b &&& ALL_SENSORS_READY = ALL_SENSORS_READY ↔
      (b.testBit 0 = true ∧ b.testBit 1 = true ∧ b.testBit 2 = true)) ∧
    (y.processor_in_loop = false →
      y.st.system_events &&& ALL_SENSORS_READY ≠ ALL_SENSORS_READY →
      (step t o y).processor_in_loop = false) ∧
    (y.processor_in_loop = false →
      y.st.system_events &&& ALL_SENSORS_READY = ALL_SENSORS_READY →
      (step Task.processor o y).processor_in_loop = true ∧
      (step Task.processor o y).st = y.st) := by
  refine ⟨?_, all_sensors_ready_iff b, ?_, ?_⟩
  · intro hp
    obtain ⟨h0, h1, h2, h3⟩ := run_invariant (F := F) schedule
    have hb := h3 hp
    exact ⟨(all_sensors_ready_iff _).mpr hb, h0 hb.1, h1 hb.2.1, h2 hb.2.2⟩
  · intro hp hne
    cases t with
    | temperature => simp only [step, temperature_sensor_task]; split_ifs <;> exact hp
    | humidity => simp only [step, humidity_sensor_task]; split_ifs <;> exact hp
    | pressure => simp only [step, pressure_sensor_task]; split_ifs <;> exact hp
    | processor =>
      simp only [step, data_processor_task, hp]
      rw [if_neg (by simp), (processor_barrier_spec y).2 hne]
      exact hp
    | display => simp only [step, display_task]; exact hp
  · intro hp he
    simp only [step, data_processor_task, hp]
    rw [if_neg (by simp), (processor_barrier_spec y).1 he]
    exact ⟨rfl, rfl⟩

theorem barrier_releases_iff_all_ready_witness :
    (run (init_sys : Sys ℚ)
      [(Task.temperature, ⟨0, 0, true⟩), (Task.processor, ⟨0, 0, true⟩),
       (Task.pressure, ⟨0, 0, true⟩), (Task.humidity, ⟨0, 0, true⟩),
       (Task.processor, ⟨0, 0, true⟩)]).processor_in_loop = true ∧
    (run (init_sys : Sys ℚ)
      [(Task.temperature, ⟨0, 0, true⟩), (Task.processor, ⟨0, 0, true⟩),
       (Task.pressure, ⟨0, 0, true⟩), (Task.humidity, ⟨0, 0, true⟩),
       (Task.processor, ⟨0, 0, true⟩)]).st.system_events &&& ALL_SENSORS_READY
      = ALL_SENSORS_READY ∧
    (step Task.display ⟨0, 0, true⟩ (init_sys : Sys ℚ)).processor_in_loop = false ∧
    (step Task.processor ⟨0, 0, true⟩
      { (init_sys : Sys ℚ) with st := { (init : State ℚ) with system_events := 7 } }
      ).processor_in_loop = true :=
  have hrun : (run (init_sys : Sys ℚ)
      [(Task.temperature, ⟨0, 0, true⟩), (Task.processor, ⟨0, 0, true⟩),
       (Task.pressure, ⟨0, 0, true⟩), (Task.humidity, ⟨0, 0, true⟩),
       (Task.processor, ⟨0, 0, true⟩)]).processor_in_loop = true := by decide
  ⟨hrun,
    ((barrier_releases_iff_all_ready _ Task.display ⟨0, 0, true⟩ (init_sys : Sys ℚ) 0).1 hrun).1,
    (barrier_releases_iff_all_ready [] Task.display ⟨0, 0, true⟩ (init_sys : Sys ℚ) 0).2.2.1
      (by decide) (by decide),
    ((barrier_releases_iff_all_ready [] Task.display ⟨0, 0, true⟩
      { (init_sys : Sys ℚ) with st := { (init : State ℚ) with system_events := 7 } } 0).2.2.2
      (by decide) (by decide)).1⟩

/-! ## The readiness flags never go back -/

theorem ready_bit_iff (e : Nat) :
    (e &&& SENSOR_1_READY_BIT = SENSOR_1_READY_BIT ↔ e.testBit 0 = true) ∧
    (e &&& SENSOR_2_READY_BIT = SENSOR_2_READY_BIT ↔ e.testBit 1 = true) ∧
    (e &&& SENSOR_3_READY_BIT = SENSOR_3_READY_BIT ↔ e.testBit 2 = true) := by
  have e1 : SENSOR_1_READY_BIT = 2 ^ 0 := by decide
  have e2 : SENSOR_2_READY_BIT = 2 ^ 1 := by decide
  have e3 : SENSOR_3_READY_BIT = 2 ^ 2 := by decide
  have key : ∀ i : Nat, e &&& 2 ^ i = 2 ^ i ↔ e.testBit i = true := by
    intro i
    constructor
    · intro h
      have h1 := congrArg (fun x => Nat.testBit x i) h
      simp only [Nat.testBit_and, Nat.testBit_two_pow_self, Bool.and_true] at h1
      exact h1
    · intro h
      apply Nat.eq_of_testBit_eq
      intro j
      rw [Nat.testBit_and, Nat.testBit_two_pow]
      by_cases hij : i = j
      · subst hij; simp [h]
      · simp [hij]
  rw [e1, e2, e3]
  exact ⟨key 0, key 1, key 2⟩

/-- What a step of a task can do to the event group. -/
theorem step_events (t : Task) (o : Oracle) (y : Sys F) :
    (step t o y).st.system_events = y.st.system_events ∨
    (step t o y).st.system_events = y.st.system_events ||| SENSOR_1_READY_BIT ∨
    (step t o y).st.system_events = y.st.system_events ||| SENSOR_2_READY_BIT ∨
    (step t o y).st.system_events = y.st.system_events ||| SENSOR_3_READY_BIT ∨
    (step t o y).st.system_events = y.st.system_events ||| PROCESSING_DONE_BIT ∨
    (step t o y).st.system_events
      = y.st.system_events ^^^ (y.st.system_events &&& PROCESSING_DONE_BIT) := by
  cases t with
  | temperature =>
    simp only [step, temperature_sensor_task]
    split_ifs
    · left; simp [temperature_sensor_iter, sensor_send_events]
    · right; left; simp [sensor_ready, xEventGroupSetBits]
  | humidity =>
    simp only [step, humidity_sensor_task]
    split_ifs
    · left; simp [humidity_sensor_iter, sensor_send_events]
    · right; right; left; simp [sensor_ready, xEventGroupSetBits]
  | pressure =>
    simp only [step, pressure_sensor_task]
    split_ifs
    · left; simp [pressure_sensor_iter, sensor_send_events]
    · right; right; right; left; simp [sensor_ready, xEventGroupSetBits]
  | processor =>
    simp only [step, data_processor_task]
    split_ifs
    · rcases data_processor_iter_events (limiter_available y.st.counting_semaphore)
        o.mutex_ok y.st with e | e
      · left; exact e
      · right; right; right; right; left; exact e
    · by_cases hc : y.st.system_events &&& ALL_SENSORS_READY = ALL_SENSORS_READY
      · left; rw [(processor_barrier_spec y).1 hc]
      · left; rw [(processor_barrier_spec y).2 hc]
  | display =>
    simp only [step, display_task]
    rcases display_iter_events o.mutex_ok y.st with e | e
    · left; exact e
    · right; right; right; right; right; exact e

/-- Bits 0 to 2 that are set stay set over a step of any task. -/
theorem step_keeps_low_bits (t : Task) (o : Oracle) (y : Sys F) (i : Nat) (hi : i < 3)
    (h : y.st.system_events.testBit i = true) :
    (step t o y).st.system_events.testBit i = true := by
  rcases step_events t o y with e | e | e | e | e | e <;> rw [e]
  · exact h
  · rw [Nat.testBit_or, h, Bool.true_or]
  · rw [Nat.testBit_or, h, Bool.true_or]
  · rw [Nat.testBit_or, h, Bool.true_or]
  · rw [(done_bit_apart _ i hi).1]; exact h
  · rw [(done_bit_apart _ i hi).2]; exact h

/-- Setting bits that are all set already gives the same event group. -/
theorem set_bits_idem (e b : Nat) (h : e &&& b = b) : xEventGroupSetBits e b = e := by
  unfold xEventGroupSetBits
  apply Nat.eq_of_testBit_eq
  intro i
  have hi := congrArg (fun x => Nat.testBit x i) h
  simp only [Nat.testBit_and] at hi
  rw [Nat.testBit_or]
  cases he : e.testBit i <;> cases hb : b.testBit i <;> simp_all

/-- C11: over a step of any of the five tasks (a producer setting its own bit,
the aggregator at its barrier or setting `PROCESSING_DONE_BIT`, the reporter
clearing `PROCESSING_DONE_BIT` on exit of its wait), each of
`SENSOR_1_READY_BIT`, `SENSOR_2_READY_BIT`, `SENSOR_3_READY_BIT` that is set
before the step is set after it; and the readiness signal of a producer whose
bit is already set leaves the state as it was. -/
theorem ready_bits_monotonic (t : Task) (o : Oracle) (y : Sys F) (bit : Nat) (s : State F) :
    (y.st.system_events &&& SENSOR_1_READY_BIT = SENSOR_1_READY_BIT →
      (step t o y).st.system_events &&& SENSOR_1_READY_BIT = SENSOR_1_READY_BIT) ∧
    (y.st.system_events &&& SENSOR_2_READY_BIT = SENSOR_2_READY_BIT →
      (step t o y).st.system_events &&& SENSOR_2_READY_BIT = SENSOR_2_READY_BIT) ∧
    (y.st.system_events &&& SENSOR_3_READY_BIT = SENSOR_3_READY_BIT →
      (step t o y).st.system_events &&& SENSOR_3_READY_BIT = SENSOR_3_READY_BIT) ∧
    (s.system_events &&& bit = bit → (sensor_ready bit s).1 = s) := by
  obtain ⟨a1, a2, a3⟩ := ready_bit_iff y.st.system_events
  obtain ⟨b1, b2, b3⟩ := ready_bit_iff (step t o y).st.system_events
  refine ⟨fun h => ?_, fun h => ?_, fun h => ?_, fun h => ?_⟩
  · exact b1.mpr (step_keeps_low_bits t o y 0 (by omega) (a1.mp h))
  · exact b2.mpr (step_keeps_low_bits t o y 1 (by omega) (a2.mp h))
  · exact b3.mpr (step_keeps_low_bits t o y 2 (by omega) (a3.mp h))
  · simp only [sensor_ready, set_bits_idem _ _ h]

theorem ready_bits_monotonic_witness :
    (step Task.display ⟨0, 0, true⟩
      { (init_sys : Sys ℚ) with st := { (init : State ℚ) with system_events := 15 } }
      ).st.system_events &&& SENSOR_2_READY_BIT = SENSOR_2_READY_BIT ∧
    (sensor_ready SENSOR_2_READY_BIT { (init : State ℚ) with system_events := 15 }).1
      = { (init : State ℚ) with system_events := 15 } :=
  ⟨(ready_bits_monotonic Task.display ⟨0, 0, true⟩
      { (init_sys : Sys ℚ) with st := { (init : State ℚ) with system_events := 15 } }
      SENSOR_2_READY_BIT { (init : State ℚ) with system_events := 15 }).2.1 (by decide),
   (ready_bits_monotonic Task.display ⟨0, 0, true⟩
      { (init_sys : Sys ℚ) with st := { (init : State ℚ) with system_events := 15 } }
      SENSOR_2_READY_BIT { (init : State ℚ) with system_events := 15 }).2.2.2 (by decide)⟩

/-! ## The limiter count -/

theorem sensor_send_limiter (d : sensor_data_t F) (ms : Nat) (s : State F) :
    (sensor_send d ms s).1.counting_semaphore = s.counting_semaphore := by
  simp [sensor_send]

theorem display_iter_limiter (mutex_ok : Bool) (s : State F) :
    (display_iter mutex_ok s).1.counting_semaphore = s.counting_semaphore := by
  cases mutex_ok <;> simp [display_iter]

/-- An iteration of the aggregator that starts with the limiter at its maximum
ends with the limiter at its maximum. -/
theorem data_processor_iter_limiter (mutex_ok : Bool) (s : State F)
    (h : s.counting_semaphore = LIMITER_MAX) :
    (data_processor_iter (limiter_available s.counting_semaphore) mutex_ok s
      ).1.counting_semaphore = LIMITER_MAX := by
  unfold data_processor_iter
  cases hq : s.sensor_queue with
  | nil => simpa [xQueueReceive] using h
  | cons d rest =>
    have ha : limiter_available s.counting_semaphore = true := by
      rw [h]; decide
    simp only [xQueueReceive, ha]
    rw [process_sample_limiter]
    simp only [h]
    decide

theorem step_limiter (t : Task) (o : Oracle) (y : Sys F)
    (h : y.st.counting_semaphore = LIMITER_MAX) :
    (step t o y).st.counting_semaphore = LIMITER_MAX := by
  cases t with
  | temperature =>
    simp only [step, temperature_sensor_task]
    split_ifs
    · simpa [temperature_sensor_iter, sensor_send_limiter] using h
    · simpa [sensor_ready] using h
  | humidity =>
    simp only [step, humidity_sensor_task]
    split_ifs
    · simpa [humidity_sensor_iter, sensor_send_limiter] using h
    · simpa [sensor_ready] using h
  | pressure =>
    simp only [step, pressure_sensor_task]
    split_ifs
    · simpa [pressure_sensor_iter, sensor_send_limiter] using h
    · simpa [sensor_ready] using h
  | processor =>
    simp only [step, data_processor_task]
    split_ifs
    · exact data_processor_iter_limiter o.mutex_ok y.st h
    · by_cases hc : y.st.system_events &&& ALL_SENSORS_READY = ALL_SENSORS_READY
      · rw [(processor_barrier_spec y).1 hc]; exact h
      · rw [(processor_barrier_spec y).2 hc]; exact h
  | display =>
    simp only [step, display_task]
    rw [display_iter_limiter]; exact h

/-- Between the steps of the tasks the limiter is at its maximum. -/
theorem run_limiter_full (schedule : List (Task × Oracle)) :
    (run (init_sys : Sys F) schedule).st.counting_semaphore = LIMITER_MAX := by
  induction schedule using List.reverseRecOn with
  | nil => simp [run, init_sys, init]
  | append_singleton sch a ih =>
    rw [run_snoc]
    exact step_limiter a.1 a.2 _ ih

/-- C12: the limiter starts at `2`; in every state reached under any schedule
its count is at most `2`, and so is the count while the aggregator holds it
inside a cycle (one take from a positive count, so no take goes below zero and
at most `2` takes can be outstanding); and a take attempted with the count at
`0` is not obtained and leaves the whole state, count included, as it was. -/
theorem limiter_within_capacity (schedule : List (Task × Oracle)) (mutex_ok : Bool)
    (d : sensor_data_t F) (s : State F) :
    (init_sys : Sys F).st.counting_semaphore = 2 ∧
    (run (init_sys : Sys F) schedule).st.counting_semaphore ≤ LIMITER_MAX ∧
    0 < (run (init_sys : Sys F) schedule).st.counting_semaphore ∧
    xSemaphoreTake true (run (init_sys : Sys F) schedule).st.counting_semaphore + 1
      = (run (init_sys : Sys F) schedule).st.counting_semaphore ∧
    LIMITER_MAX - xSemaphoreTake true (run (init_sys : Sys F) schedule).st.counting_semaphore
      ≤ 2 ∧
    (s.counting_semaphore = 0 →
      limiter_available s.counting_semaphore = false ∧
      (process_sample (limiter_available s.counting_semaphore) mutex_ok d s).1 = s ∧
      xSemaphoreTake (limiter_available s.counting_semaphore) s.counting_semaphore = 0) := by
  have h := run_limiter_full (F := F) schedule
  rw [h]
  refine ⟨by simp [init_sys, init, LIMITER_MAX], by decide, by decide, by decide, by decide, ?_⟩
  intro h0
  rw [h0]
  have ha : limiter_available 0 = false := by decide
  rw [ha, process_sample_skip]
  exact ⟨rfl, rfl, by decide⟩

theorem limiter_within_capacity_witness :
    limiter_available ({ (init : State ℚ) with counting_semaphore := 0 }).counting_semaphore
      = false ∧
    (process_sample
      (limiter_available ({ (init : State ℚ) with counting_semaphore := 0 }).counting_semaphore)
      true (⟨1, 25, 0⟩ : sensor_data_t ℚ)
      { (init : State ℚ) with counting_semaphore := 0 }).1
      = { (init : State ℚ) with counting_semaphore := 0 } :=
  have h := (limiter_within_capacity ([] : List (Task × Oracle)) true
    (⟨1, 25, 0⟩ : sensor_data_t ℚ) { (init : State ℚ) with counting_semaphore := 0 }).2.2.2.2.2 rfl
  ⟨h.1, h.2.1⟩

/-- C19: at the start of every step of the aggregator, under any schedule, the
limiter count is `2`; the take of the limiter is therefore obtained, and the
iteration does not go through the branch that warns that the limiter is
unavailable. -/
theorem limiter_never_unavailable (schedule : List (Task × Oracle)) (mutex_ok : Bool) :
    (run (init_sys : Sys F) schedule).st.counting_semaphore = 2 ∧
    limiter_available (run (init_sys : Sys F) schedule).st.counting_semaphore = true ∧
    Call.take_counting false ∉
      (data_processor_iter
        (limiter_available (run (init_sys : Sys F) schedule).st.counting_semaphore)
        mutex_ok (run (init_sys : Sys F) schedule).st).2 ∧
    Call.warn Warning.semaforo_no_disponible ∉
      (data_processor_iter
        (limiter_available (run (init_sys : Sys F) schedule).st.counting_semaphore)
        mutex_ok (run (init_sys : Sys F) schedule).st).2 := by
  have h := run_limiter_full (F := F) schedule
  have ha : limiter_available (run (init_sys : Sys F) schedule).st.counting_semaphore = true := by
    rw [h]; decide
  rw [ha]
  refine ⟨h, rfl, ?_, ?_⟩
  · unfold data_processor_iter
    cases hq : (run (init_sys : Sys F) schedule).st.sensor_queue with
    | nil => simp [xQueueReceive]
    | cons d rest =>
      simp only [xQueueReceive, process_sample, if_true]
      cases mutex_ok <;> simp [publish_stats, signal_done] <;> split_ifs <;> simp
  · unfold data_processor_iter
    cases hq : (run (init_sys : Sys F) schedule).st.sensor_queue with
    | nil => simp [xQueueReceive]
    | cons d rest =>
      simp only [xQueueReceive, process_sample, if_true]
      cases mutex_ok <;> simp [publish_stats, signal_done] <;> split_ifs <;> simp

/-! ## What the reporter publishes -/

/-- C13, as stated, fails: an iteration of the reporter whose take of
`stats_mutex` times out publishes nothing, with the done bit set at the wait
or not. -/
theorem display_publishes_nothing_without_mutex :
    published (display_iter false { (init : State ℚ) with system_events := 8 }).2 = [] ∧
    published (display_iter false (init : State ℚ)).2 = [] := by
  decide

/-- C13, amended: an iteration of the reporter that obtains `stats_mutex`
publishes exactly one snapshot, `global_stats`, whatever the event group holds
when it waits (done bit set, so the wait is satisfied, or clear, so the wait
times out): the outcome of the wait neither suppresses the publication nor
changes what is published. An iteration whose take of `stats_mutex` times out
publishes nothing and warns. -/
theorem display_publishes_once (s : State F) (e : Nat) :
    (published (display_iter true { s with system_events := e }).2).length = 1 ∧
    published (display_iter true { s with system_events := e }).2 = [s.global_stats] ∧
    published (display_iter true { s with system_events := e }).2
      = published (display_iter true s).2 ∧
    published (display_iter false { s with system_events := e }).2 = [] ∧
    Call.warn Warning.estadisticas_no_display
      ∈ (display_iter false { s with system_events := e }).2 := by
  simp [display_iter, published]

/-! ## The bounded queue -/

theorem run_sends_snoc (s : State F) (ds : List (sensor_data_t F × Nat))
    (d : sensor_data_t F × Nat) :
    run_sends s (ds ++ [d]) = (sensor_send d.1 d.2 (run_sends s ds)).1 := by
  simp [run_sends, List.foldl_append]

/-- Sends touch nothing but the queue. -/
theorem run_sends_frame (s : State F) (ds : List (sensor_data_t F × Nat)) :
    run_sends s ds = { s with sensor_queue := (run_sends s ds).sensor_queue } := by
  induction ds using List.reverseRecOn with
  | nil => simp [run_sends]
  | append_singleton ds d ih =>
    rw [run_sends_snoc]
    simp only [sensor_send]
    rw [ih]

/-- The queue after sends into the empty queue: the first ten samples sent. -/
theorem run_sends_queue (ds : List (sensor_data_t F × Nat)) :
    (run_sends (init : State F) ds).sensor_queue = (ds.map Prod.fst).take QUEUE_SIZE := by
  induction ds using List.reverseRecOn with
  | nil => simp [run_sends, init]
  | append_singleton ds d ih =>
    rw [run_sends_snoc]
    simp only [sensor_send, xQueueSend, ih, List.length_take, List.length_map, List.map_append,
      List.map_singleton]
    by_cases hlen : ds.length < QUEUE_SIZE
    · have h1 : min QUEUE_SIZE ds.length < QUEUE_SIZE := by omega
      rw [if_pos h1]
      rw [List.take_of_length_le (by simp; omega),
        List.take_of_length_le (by simp; omega)]
    · have h1 : ¬ min QUEUE_SIZE ds.length < QUEUE_SIZE := by omega
      rw [if_neg h1]
      rw [List.take_append_of_le_length (by simp; omega)]

/-- The bound that an iteration of the aggregator keeps: the stored total is at
most the sum of the counts, and that sum plus what is still queued is at most
the capacity of the queue. -/
theorem data_processor_iter_bound (limiter_ok mutex_ok : Bool) (s : State F)
    (ht : s.global_stats.total_samples ≤ counts_total s)
    (hq : counts_total s + s.sensor_queue.length ≤ QUEUE_SIZE) :
    (data_processor_iter limiter_ok mutex_ok s).1.global_stats.total_samples
      ≤ counts_total (data_processor_iter limiter_ok mutex_ok s).1 ∧
    counts_total (data_processor_iter limiter_ok mutex_ok s).1
      + (data_processor_iter limiter_ok mutex_ok s).1.sensor_queue.length ≤ QUEUE_SIZE := by
  unfold data_processor_iter
  cases hs : s.sensor_queue with
  | nil =>
    simp only [xQueueReceive]
    exact ⟨ht, hq⟩
  | cons d rest =>
    simp only [xQueueReceive]
    rw [hs] at hq
    simp only [List.length_cons, counts_total, QUEUE_SIZE] at hq ht ⊢
    cases limiter_ok with
    | false =>
      rw [process_sample_skip]
      simp only
      omega
    | true =>
      obtain ⟨a1, a2, a3, a4, a5, a6⟩ :=
        process_sample_accumulators mutex_ok d { s with sensor_queue := rest }
      have hqueue : (process_sample true mutex_ok d { s with sensor_queue := rest }
          ).1.sensor_queue = rest := by
        simp only [process_sample, if_true, signal_done_frame]
        simp [publish_stats_frame, accumulate_frame]
      have htot : (process_sample true mutex_ok d { s with sensor_queue := rest }
          ).1.global_stats.total_samples
            = (if mutex_ok then
                counts_total (accumulate d { s with sensor_queue := rest })
               else s.global_stats.total_samples) := by
        cases mutex_ok with
        | true => rw [process_sample_total, counts_total, a4, a5, a6]; rfl
        | false =>
          simp only [process_sample, if_true, signal_done_frame, publish_stats]
          simp [accumulate_frame]
      rw [a4, a5, a6, hqueue, htot]
      simp only [counts_total]
      unfold accumulate
      split_ifs <;> simp only <;> omega

theorem run_processor_snoc (s : State F) (os : List (Bool × Bool)) (o : Bool × Bool) :
    run_processor s (os ++ [o]) = (data_processor_iter o.1 o.2 (run_processor s os)).1 := by
  simp [run_processor, List.foldl_append]

theorem run_processor_bound (s : State F) (os : List (Bool × Bool))
    (ht : s.global_stats.total_samples ≤ counts_total s)
    (hq : counts_total s + s.sensor_queue.length ≤ QUEUE_SIZE) :
    (run_processor s os).global_stats.total_samples ≤ counts_total (run_processor s os) ∧
    counts_total (run_processor s os) + (run_processor s os).sensor_queue.length
      ≤ QUEUE_SIZE := by
  induction os using List.reverseRecOn with
  | nil => exact ⟨ht, hq⟩
  | append_singleton os o ih =>
    rw [run_processor_snoc]
    exact data_processor_iter_bound o.1 o.2 _ ih.1 ih.2

/-- C14: after any sends into the empty queue with no receive in between, the
queue holds the first `10` samples sent, in order; the next send is accepted
exactly when fewer than `10` were sent before it; a refused send leaves the
state as it was (the sample is dropped) and warns; and after that, however many
iterations the aggregator runs and whatever the outcomes of its takes,
`total_samples` is at most `10`. -/
theorem queue_keeps_first_ten (ds : List (sensor_data_t F × Nat)) (d : sensor_data_t F)
    (ms : Nat) (os : List (Bool × Bool)) :
    (run_sends (init : State F) ds).sensor_queue = (ds.map Prod.fst).take 10 ∧
    (sensor_send d ms (run_sends (init : State F) ds)).2.head?
      = some (Call.queue_send (decide (ds.length < 10))) ∧
    (ds.length < 10 →
      (sensor_send d ms (run_sends (init : State F) ds)).1.sensor_queue
        = (run_sends (init : State F) ds).sensor_queue ++ [d]) ∧
    (10 ≤ ds.length →
      (sensor_send d ms (run_sends (init : State F) ds)).1 = run_sends (init : State F) ds ∧
      Call.warn (Warning.cola_llena d.sensor_id)
        ∈ (sensor_send d ms (run_sends (init : State F) ds)).2) ∧
    (run_processor (run_sends (init : State F) ds) os).global_stats.total_samples ≤ 10 := by
  have hq := run_sends_queue (F := F) ds
  have hlen : (run_sends (init : State F) ds).sensor_queue.length = min 10 ds.length := by
    rw [hq]; simp [QUEUE_SIZE]
  have hfr := run_sends_frame (init : State F) ds
  refine ⟨hq, ?_, ?_, ?_, ?_⟩
  · simp only [sensor_send, xQueueSend, hlen, QUEUE_SIZE]
    by_cases h : ds.length < 10
    · have h1 : min 10 ds.length < 10 := by omega
      simp [h, h1]
    · have h1 : ¬ min 10 ds.length < 10 := by omega
      simp [h, h1]
  · intro h
    have h1 : min 10 ds.length < 10 := by omega
    simp [sensor_send, xQueueSend, hlen, QUEUE_SIZE, h1]
  · intro h
    have h1 : ¬ min 10 ds.length < 10 := by omega
    simp [sensor_send, xQueueSend, hlen, QUEUE_SIZE, h1]
  · have hb := run_processor_bound (run_sends (init : State F) ds) os
      (by rw [hfr]; simp [init, counts_total])
      (by rw [hlen, hfr]; simp [init, counts_total, QUEUE_SIZE])
    have h2 := hb.2
    simp only [QUEUE_SIZE] at h2
    omega

theorem queue_keeps_first_ten_witness :
    (sensor_send (⟨3, 1000, 10⟩ : sensor_data_t ℚ) 4000
        (run_sends (init : State ℚ) (List.replicate 10 (⟨1, 25, 0⟩, 2000)))).1
      = run_sends (init : State ℚ) (List.replicate 10 (⟨1, 25, 0⟩, 2000)) ∧
    (sensor_send (⟨3, 1000, 10⟩ : sensor_data_t ℚ) 4000
        (run_sends (init : State ℚ) (List.replicate 10 (⟨1, 25, 0⟩, 2000)))).2.head?
      = some (Call.queue_send false) :=
  ⟨((queue_keeps_first_ten (List.replicate 10 ((⟨1, 25, 0⟩ : sensor_data_t ℚ), 2000))
      (⟨3, 1000, 10⟩ : sensor_data_t ℚ) 4000 []).2.2.2.1 (by decide)).1,
   (queue_keeps_first_ten (List.replicate 10 ((⟨1, 25, 0⟩ : sensor_data_t ℚ), 2000))
      (⟨3, 1000, 10⟩ : sensor_data_t ℚ) 4000 []).2.1⟩

/-! ## Start-up -/

/-- The tasks `app_main` spawns: none when a shared object could not be
created, otherwise the longest initial part of the creation order whose
creations all succeed. -/
theorem spawned_app_main (c : Creations) :
    spawned (app_main c)
      = (if (c.sensor_queue && c.binary_semaphore && c.counting_semaphore
              && c.system_events && c.stats_mutex) = true
         then creation_order.takeWhile (task_created c) else []) := by
  rcases c with ⟨a1, a2, a3, a4, a5, a6, a7, a8, a9, a10, a11⟩
  cases a1
  · rfl
  cases a2
  · rfl
  cases a3
  · rfl
  cases a4
  · rfl
  cases a5
  · rfl
  cases a6
  · rfl
  cases a7
  · rfl
  cases a8
  · rfl
  cases a9
  · rfl
  cases a10
  · rfl
  cases a11 <;> rfl

/-- In an initial part of the creation order cut at the first task that fails
a test, every task comes before any task that fails the test. -/
theorem takeWhile_before_failure (p : TaskName → Bool) (t : TaskName) (h : p t = false) :
    ∀ u ∈ creation_order.takeWhile p, creation_rank u < creation_rank t := by
  intro u hu
  simp only [creation_order, List.takeWhile] at hu
  cases h0 : p TaskName.system_init_task <;> rw [h0] at hu <;> simp only at hu
  · simp at hu
  cases h1 : p TaskName.temperature_sensor_task <;> rw [h1] at hu <;> simp only at hu
  · cases t <;> simp_all [creation_rank]
  cases h2 : p TaskName.humidity_sensor_task <;> rw [h2] at hu <;> simp only at hu
  · cases t <;> simp_all [creation_rank] <;> rcases hu with rfl | rfl <;> simp
  cases h3 : p TaskName.pressure_sensor_task <;> rw [h3] at hu <;> simp only at hu
  · cases t <;> simp_all [creation_rank] <;> rcases hu with rfl | rfl | rfl <;> simp
  cases h4 : p TaskName.data_processor_task <;> rw [h4] at hu <;> simp only at hu
  · cases t <;> simp_all [creation_rank] <;> rcases hu with rfl | rfl | rfl | rfl <;> simp
  cases h5 : p TaskName.display_task <;> rw [h5] at hu <;> simp only at hu
  · cases t <;> simp_all [creation_rank]
    rcases hu with rfl | rfl | rfl | rfl | rfl <;> simp
  · cases t; all_goals simp_all

/-- C15: whatever the outcomes of the creation calls, if the creation of one of
the five shared objects fails, `app_main` spawns no task; if the creation of a
task fails, every task `app_main` has spawned comes before it in the creation
order (neither it nor any later task is spawned); and the tasks spawned are
always an initial part of the creation order. -/
theorem app_main_stops_at_failure (c : Creations) (t : TaskName) :
    ((c.sensor_queue = false ∨ c.binary_semaphore = false ∨ c.counting_semaphore = false ∨
        c.system_events = false ∨ c.stats_mutex = false) →
      spawned (app_main c) = []) ∧
    (task_created c t = false →
      ∀ u ∈ spawned (app_main c), creation_rank u < creation_rank t) ∧
    spawned (app_main c) <+: creation_order := by
  rw [spawned_app_main]
  refine ⟨?_, ?_, ?_⟩
  · intro h
    rw [if_neg]
    rcases h with h | h | h | h | h <;> simp [h]
  · intro h u hu
    split_ifs at hu
    · exact takeWhile_before_failure (task_created c) t h u hu
    · simp at hu
  · split_ifs
    · exact List.takeWhile_prefix _
    · exact List.nil_prefix

theorem app_main_stops_at_failure_witness :
    spawned (app_main { all_created with stats_mutex := false }) = [] ∧
    (∀ u ∈ spawned (app_main { all_created with pressure_sensor_task := false }),
      creation_rank u < creation_rank TaskName.pressure_sensor_task) :=
  ⟨(app_main_stops_at_failure { all_created with stats_mutex := false }
      TaskName.display_task).1 (by decide),
   (app_main_stops_at_failure { all_created with pressure_sensor_task := false }
      TaskName.pressure_sensor_task).2.1 (by decide)⟩

theorem app_main_all_created :
    app_main all_created
      = [Boot.create Resource.sensor_queue true, Boot.create Resource.binary_semaphore true,
         Boot.create Resource.counting_semaphore true, Boot.create Resource.system_events true,
         Boot.create Resource.stats_mutex true,
         Boot.task_create TaskName.system_init_task true, Boot.take_binary,
         Boot.task_create TaskName.temperature_sensor_task true,
         Boot.task_create TaskName.humidity_sensor_task true,
         Boot.task_create TaskName.pressure_sensor_task true,
         Boot.task_create TaskName.data_processor_task true,
         Boot.task_create TaskName.display_task true] := by
  decide

theorem boot_run_snoc (b : BootSys) (schedule : List BootWho) (w : BootWho) :
    boot_run b (schedule ++ [w]) = boot_step w (boot_run b schedule) := by
  simp [boot_run, List.foldl_append]

/-- What a step of start-up keeps: `app_main` works through its calls in
order; `system_init_task` has either not run or run once; the token is absent
until it has run; and `app_main` is past its take only if it has run. -/
theorem boot_step_keeps (c : Creations) (w : BootWho) (b : BootSys)
    (h1 : b.done ++ b.pending = app_main c)
    (h2 : b.init_trace = [] ∨ b.init_trace = (system_init_task 0).2)
    (h3 : b.init_trace = [] → b.binary_semaphore = 0)
    (h4 : Boot.take_binary ∈ b.done → b.init_trace ≠ []) :
    (boot_step w b).done ++ (boot_step w b).pending = app_main c ∧
    ((boot_step w b).init_trace = [] ∨ (boot_step w b).init_trace = (system_init_task 0).2) ∧
    ((boot_step w b).init_trace = [] → (boot_step w b).binary_semaphore = 0) ∧
    (Boot.take_binary ∈ (boot_step w b).done → (boot_step w b).init_trace ≠ []) := by
  cases w with
  | app_main =>
    unfold boot_step
    cases hp : b.pending with
    | nil => simp only; exact ⟨by rw [← h1, hp], h2, h3, h4⟩
    | cons e rest =>
      rw [hp] at h1
      cases e with
      | take_binary =>
        simp only
        split_ifs with hpos
        · refine ⟨by simpa using h1, h2, ?_, ?_⟩
          · intro hi
            have := h3 hi
            omega
          · intro _ hi
            have := h3 hi
            omega
        · exact ⟨by rw [hp]; exact h1, h2, h3, h4⟩
      | create r ok => exact ⟨by simpa using h1, h2, h3, by simpa using h4⟩
      | task_create t ok => exact ⟨by simpa using h1, h2, h3, by simpa using h4⟩
      | give_binary => exact ⟨by simpa using h1, h2, h3, by simpa using h4⟩
      | delay_ms ms => exact ⟨by simpa using h1, h2, h3, by simpa using h4⟩
      | task_delete => exact ⟨by simpa using h1, h2, h3, by simpa using h4⟩
  | system_init_task =>
    unfold boot_step
    simp only
    split_ifs with hc
    · refine ⟨h1, Or.inr rfl, ?_, ?_⟩
      · intro hi
        simp [system_init_task] at hi
      · intro _
        simp [system_init_task]
    · exact ⟨h1, h2, h3, h4⟩

theorem boot_run_keeps (c : Creations) (schedule : List BootWho) :
    (boot_run (boot_init c) schedule).done ++ (boot_run (boot_init c) schedule).pending
      = app_main c ∧
    ((boot_run (boot_init c) schedule).init_trace = [] ∨
      (boot_run (boot_init c) schedule).init_trace = (system_init_task 0).2) ∧
    ((boot_run (boot_init c) schedule).init_trace = [] →
      (boot_run (boot_init c) schedule).binary_semaphore = 0) ∧
    (Boot.take_binary ∈ (boot_run (boot_init c) schedule).done →
      (boot_run (boot_init c) schedule).init_trace ≠ []) := by
  induction schedule using List.reverseRecOn with
  | nil => simp [boot_run, boot_init]
  | append_singleton sch w ih =>
    rw [boot_run_snoc]
    exact boot_step_keeps c w _ ih.1 ih.2.1 ih.2.2.1 ih.2.2.2

/-- In an initial part of the calls of `app_main` with every creation
succeeding, the initializer comes after the five objects, and any other task
after the take of `binary_semaphore`. -/
theorem all_created_order (k : Nat) (t : TaskName) :
    (Boot.task_create TaskName.system_init_task true ∈ (app_main all_created).take k →
      ∀ r : Resource, Boot.create r true ∈ (app_main all_created).take k) ∧
    (t ≠ TaskName.system_init_task →
      Boot.task_create t true ∈ (app_main all_created).take k →
      Boot.take_binary ∈ (app_main all_created).take k) := by
  rw [app_main_all_created]
  by_cases hk : k ≤ 12
  · interval_cases k <;> refine ⟨?_, ?_⟩ <;>
      first
        | (intro h r; revert h; cases r <;> decide)
        | (cases t <;> decide)
  · rw [List.take_of_length_le (by simp; omega)]
    refine ⟨?_, ?_⟩
    · intro _ r; cases r <;> decide
    · intro _ _; decide

/-- C16: with every creation succeeding, `app_main` spawns the tasks in the
order initializer, temperature, humidity, pressure, aggregator, reporter;
`binary_semaphore` is given once by `system_init_task` and never by
`app_main`; and at every moment of start-up, under any schedule of `app_main`
and `system_init_task`: the initializer has been spawned only if the five
shared objects have been created, and a producer, the aggregator or the
reporter has been spawned only if `app_main` has taken `binary_semaphore` and
`system_init_task` has made its one give. -/
theorem spawn_after_gate (schedule : List BootWho) (t : TaskName) (count : Nat) :
    spawned (app_main all_created) = creation_order ∧
    gives_of_gate (system_init_task count).2 = 1 ∧
    gives_of_gate (app_main all_created) = 0 ∧
    gives_of_gate (boot_run (boot_init all_created) schedule).init_trace ≤ 1 ∧
    (Boot.task_create TaskName.system_init_task true
        ∈ (boot_run (boot_init all_created) schedule).done →
      ∀ r : Resource, Boot.create r true ∈ (boot_run (boot_init all_created) schedule).done) ∧
    (t ≠ TaskName.system_init_task →
      Boot.task_create t true ∈ (boot_run (boot_init all_created) schedule).done →
      Boot.take_binary ∈ (boot_run (boot_init all_created) schedule).done ∧
      gives_of_gate (boot_run (boot_init all_created) schedule).init_trace = 1) := by
  obtain ⟨h1, h2, _, h4⟩ := boot_run_keeps all_created schedule
  have hd : (app_main all_created).take (boot_run (boot_init all_created) schedule).done.length
      = (boot_run (boot_init all_created) schedule).done := by
    rw [← h1]; exact List.take_left _ _
  have ho := all_created_order (boot_run (boot_init all_created) schedule).done.length t
  rw [hd] at ho
  refine ⟨by decide, by simp [system_init_task, gives_of_gate], by decide, ?_, ho.1, ?_⟩
  · rcases h2 with e | e <;> rw [e] <;> decide
  · intro ht hs
    have htake := ho.2 ht hs
    refine ⟨htake, ?_⟩
    rcases h2 with e | e
    · exact absurd e (h4 htake)
    · rw [e]; decide

theorem spawn_after_gate_witness :
    Boot.task_create TaskName.temperature_sensor_task true
      ∈ (boot_run (boot_init all_created)
          (List.replicate 6 BootWho.app_main ++ [BootWho.system_init_task]
            ++ List.replicate 2 BootWho.app_main)).done ∧
    Boot.take_binary
      ∈ (boot_run (boot_init all_created)
          (List.replicate 6 BootWho.app_main ++ [BootWho.system_init_task]
            ++ List.replicate 2 BootWho.app_main)).done ∧
    gives_of_gate (boot_run (boot_init all_created)
          (List.replicate 6 BootWho.app_main ++ [BootWho.system_init_task]
            ++ List.replicate 2 BootWho.app_main)).init_trace = 1 :=
  have h : Boot.task_create TaskName.temperature_sensor_task true
      ∈ (boot_run (boot_init all_created)
          (List.replicate 6 BootWho.app_main ++ [BootWho.system_init_task]
            ++ List.replicate 2 BootWho.app_main)).done := by decide
  ⟨h, (spawn_after_gate _ TaskName.temperature_sensor_task 0).2.2.2.2.2 (by decide) h⟩

/-! ## The averages -/

/-- The critical section, field by field. -/
theorem update_stats_fields (s : State F) :
    (update_stats s).temperature_avg
      = (if 0 < s.temp_count then s.temp_sum / (s.temp_count : F)
         else s.global_stats.temperature_avg) ∧
    (update_stats s).humidity_avg
      = (if 0 < s.humidity_count then s.humidity_sum / (s.humidity_count : F)
         else s.global_stats.humidity_avg) ∧
    (update_stats s).pressure_avg
      = (if 0 < s.pressure_count then s.pressure_sum / (s.pressure_count : F)
         else s.global_stats.pressure_avg) := by
  unfold update_stats
  refine ⟨?_, ?_, ?_⟩ <;> split_ifs <;> rfl

/-- The store after a cycle that obtained both takes is the critical section
applied to the accumulators the cycle leaves. -/
theorem process_sample_store (d : sensor_data_t F) (s : State F) :
    (process_sample true true d s).1.global_stats
      = update_stats { (process_sample true true d s).1 with global_stats := s.global_stats } := by
  obtain ⟨a1, a2, a3, a4, a5, a6⟩ := process_sample_accumulators true d s
  have hg : (process_sample true true d s).1.global_stats
      = update_stats (accumulate d
          { s with counting_semaphore := xSemaphoreTake true s.counting_semaphore }) := by
    simp only [process_sample, publish_stats, if_true, signal_done_frame]
  rw [hg]
  have hacc := accumulate_frame d
    { s with counting_semaphore := xSemaphoreTake true s.counting_semaphore }
  have b : ∀ u : State F, (accumulate d
      { u with counting_semaphore := xSemaphoreTake true u.counting_semaphore }).temp_sum
        = (accumulate d u).temp_sum ∧
      (accumulate d
      { u with counting_semaphore := xSemaphoreTake true u.counting_semaphore }).humidity_sum
        = (accumulate d u).humidity_sum ∧
      (accumulate d
      { u with counting_semaphore := xSemaphoreTake true u.counting_semaphore }).pressure_sum
        = (accumulate d u).pressure_sum ∧
      (accumulate d
      { u with counting_semaphore := xSemaphoreTake true u.counting_semaphore }).temp_count
        = (accumulate d u).temp_count ∧
      (accumulate d
      { u with counting_semaphore := xSemaphoreTake true u.counting_semaphore }).humidity_count
        = (accumulate d u).humidity_count ∧
      (accumulate d
      { u with counting_semaphore := xSemaphoreTake true u.counting_semaphore }).pressure_count
        = (accumulate d u).pressure_count := by
    intro u
    unfold accumulate
    split_ifs <;> simp
  obtain ⟨b1, b2, b3, b4, b5, b6⟩ := b s
  simp only [update_stats, a1, a2, a3, a4, a5, a6, b1, b2, b3, b4, b5, b6, hacc.1]

/-- C17: after a cycle that obtains the limiter and `stats_mutex`, for each
source the published average is `sum / count` (in the arithmetic of the float
type, on the sum and count the cycle leaves) when the count is positive, and
is what it was before the cycle when the count is zero; every divisor of a
division the critical section makes is positive. -/
theorem averages_guarded (d : sensor_data_t F) (s u : State F) :
    (0 < (process_sample true true d s).1.temp_count →
      (process_sample true true d s).1.global_stats.temperature_avg
        = (process_sample true true d s).1.temp_sum
          / ((process_sample true true d s).1.temp_count : F)) ∧
    ((process_sample true true d s).1.temp_count = 0 →
      (process_sample true true d s).1.global_stats.temperature_avg
        = s.global_stats.temperature_avg) ∧
    (0 < (process_sample true true d s).1.humidity_count →
      (process_sample true true d s).1.global_stats.humidity_avg
        = (process_sample true true d s).1.humidity_sum
          / ((process_sample true true d s).1.humidity_count : F)) ∧
    ((process_sample true true d s).1.humidity_count = 0 →
      (process_sample true true d s).1.global_stats.humidity_avg
        = s.global_stats.humidity_avg) ∧
    (0 < (process_sample true true d s).1.pressure_count →
      (process_sample true true d s).1.global_stats.pressure_avg
        = (process_sample true true d s).1.pressure_sum
          / ((process_sample true true d s).1.pressure_count : F)) ∧
    ((process_sample true true d s).1.pressure_count = 0 →
      (process_sample true true d s).1.global_stats.pressure_avg
        = s.global_stats.pressure_avg) ∧
    (∀ n ∈ update_stats_divisors u, 0 < n) := by
  rw [process_sample_store]
  obtain ⟨f1, f2, f3⟩ := update_stats_fields
    { (process_sample true true d s).1 with global_stats := s.global_stats }
  rw [f1, f2, f3]
  refine ⟨fun h => ?_, fun h => ?_, fun h => ?_, fun h => ?_, fun h => ?_, fun h => ?_, ?_⟩
  · simp only [h, if_true]
  · simp only [h, Nat.lt_irrefl, if_false]
  · simp only [h, if_true]
  · simp only [h, Nat.lt_irrefl, if_false]
  · simp only [h, if_true]
  · simp only [h, Nat.lt_irrefl, if_false]
  · intro n hn
    unfold update_stats_divisors at hn
    simp only [List.mem_append] at hn
    rcases hn with (hn | hn) | hn <;> split_ifs at hn <;> simp at hn <;> omega

theorem averages_guarded_witness :
    (process_sample true true (⟨1, 25, 0⟩ : sensor_data_t ℚ) init).1.global_stats.temperature_avg
      = (process_sample true true (⟨1, 25, 0⟩ : sensor_data_t ℚ) init).1.temp_sum
        / ((process_sample true true (⟨1, 25, 0⟩ : sensor_data_t ℚ) init).1.temp_count : ℚ) ∧
    (process_sample true true (⟨1, 25, 0⟩ : sensor_data_t ℚ) init).1.global_stats.humidity_avg
      = (init : State ℚ).global_stats.humidity_avg :=
  ⟨(averages_guarded (⟨1, 25, 0⟩ : sensor_data_t ℚ) init init).1 (by decide),
   (averages_guarded (⟨1, 25, 0⟩ : sensor_data_t ℚ) init init).2.2.2.1 (by decide)⟩

/-! ## The width of the counters -/

theorem samples_of_replicate (i n : Nat) (d : sensor_data_t F) :
    samples_of i (List.replicate n d) = if d.sensor_id = i then n else 0 := by
  induction n with
  | zero => simp [samples_of]
  | succ n ih =>
    rw [List.replicate_succ, samples_of_cons, ih]
    split_ifs <;> omega

/-- The samples of a sequence that all come from one source. -/
theorem samples_of_single (i j : Nat) (ds : List (sensor_data_t F))
    (hall : ∀ d ∈ ds, d.sensor_id = i) :
    samples_of j ds = if i = j then ds.length else 0 := by
  induction ds with
  | nil => simp [samples_of]
  | cons d ds ih =>
    have hd := hall d (List.mem_cons_self _ _)
    rw [samples_of_cons, ih (fun x hx => hall x (List.mem_cons_of_mem _ hx)), hd,
      List.length_cons]
    split_ifs <;> omega

theorem run_granted_total_counts (ds : List (sensor_data_t F)) :
    (run_cycles (init : State F) (ds.map granted)).global_stats.total_samples
      = counts_total (run_cycles (init : State F) (ds.map granted)) :=
  run_cycles_total (ds.map (granted : sensor_data_t F → Cycle F)) (by
    intro c hc _
    simp only [List.mem_map] at hc
    obtain ⟨d, _, rfl⟩ := hc
    rfl)

/-- C18, as stated, fails: `65536` is below `2^32`, and after `65536`
temperature samples aggregated from the zeroed state `temp_count` is `0` and
`total_samples` is `0`, not `65536`. -/
theorem count_wraps_after_65536_samples :
    (65536 : Nat) < 2 ^ 32 ∧
    (run_cycles (init : State ℚ)
      ((List.replicate 65536 (⟨1, 25, 0⟩ : sensor_data_t ℚ)).map granted)).temp_count = 0 ∧
    (run_cycles (init : State ℚ)
      ((List.replicate 65536 (⟨1, 25, 0⟩ : sensor_data_t ℚ)).map granted)
      ).global_stats.total_samples = 0 := by
  obtain ⟨c1, c2, c3⟩ := run_granted_counts
    (List.replicate 65536 (⟨1, 25, 0⟩ : sensor_data_t ℚ)) (init : State ℚ)
    (by decide) (by decide) (by decide)
  rw [samples_of_replicate] at c1 c2 c3
  have i1 : (init : State ℚ).temp_count = 0 := rfl
  have i2 : (init : State ℚ).humidity_count = 0 := rfl
  have i3 : (init : State ℚ).pressure_count = 0 := rfl
  rw [i1, if_pos rfl] at c1
  rw [i2, if_neg (by decide)] at c2
  rw [i3, if_neg (by decide)] at c3
  refine ⟨by norm_num, ?_, ?_⟩
  · rw [c1]
  · rw [run_granted_total_counts, counts_total, c1, c2, c3]

/-- C18, amended: the three counts are 16-bit counters. For every sequence of
fewer than `2^16` samples of a single source `i` in `1, 2, 3`, aggregated from
the zeroed state with both takes obtained in every cycle, the count of that
source is the number of samples and `total_samples` is the number of
samples. -/
theorem counts_are_16_bit (ds : List (sensor_data_t F)) (i : Nat)
    (hi : i = 1 ∨ i = 2 ∨ i = 3) (hall : ∀ d ∈ ds, d.sensor_id = i)
    (hn : ds.length < 2 ^ 16) :
    (i = 1 → (run_cycles (init : State F) (ds.map granted)).temp_count = ds.length) ∧
    (i = 2 → (run_cycles (init : State F) (ds.map granted)).humidity_count = ds.length) ∧
    (i = 3 → (run_cycles (init : State F) (ds.map granted)).pressure_count = ds.length) ∧
    (run_cycles (init : State F) (ds.map granted)).global_stats.total_samples = ds.length := by
  have hn1 : ds.length < 65536 := by norm_num at hn; exact hn
  obtain ⟨c1, c2, c3⟩ := run_granted_counts ds (init : State F)
    (by simp [init]) (by simp [init]) (by simp [init])
  have b := fun j => samples_of_le_length j ds
  have ht := run_granted_total ds
    (fun d hd => by rw [hall d hd]; exact hi)
    (by have := b 1; omega) (by have := b 2; omega) (by have := b 3; omega)
  have i1 : (init : State F).temp_count = 0 := rfl
  have i2 : (init : State F).humidity_count = 0 := rfl
  have i3 : (init : State F).pressure_count = 0 := rfl
  refine ⟨fun e => ?_, fun e => ?_, fun e => ?_, ht⟩
  · rw [c1, i1, samples_of_single i 1 ds hall, if_pos e]; omega
  · rw [c2, i2, samples_of_single i 2 ds hall, if_pos e]; omega
  · rw [c3, i3, samples_of_single i 3 ds hall, if_pos e]; omega

theorem counts_are_16_bit_witness :
    (run_cycles (init : State ℚ)
      ((List.replicate 4 (⟨2, 60, 0⟩ : sensor_data_t ℚ)).map granted)).humidity_count
      = (List.replicate 4 (⟨2, 60, 0⟩ : sensor_data_t ℚ)).length ∧
    (run_cycles (init : State ℚ)
      ((List.replicate 4 (⟨2, 60, 0⟩ : sensor_data_t ℚ)).map granted)
      ).global_stats.total_samples
      = (List.replicate 4 (⟨2, 60, 0⟩ : sensor_data_t ℚ)).length :=
  have h := counts_are_16_bit (List.replicate 4 (⟨2, 60, 0⟩ : sensor_data_t ℚ)) 2
    (by decide) (by decide) (by decide)
  ⟨h.2.1 rfl, h.2.2.2⟩

end Lemmas

end SincroAvanzada

namespace LedsInterrupciones

/-! ## The debounce of `gpio_isr_handler` -/

/-- The unsigned subtraction is the difference taken modulo `2^32`. -/
theorem sub_u32_eq (a b : Nat) :
    (sub_u32 a b : Int) = ((a : Int) - (b : Int)) % 2 ^ 32 := by
  unfold sub_u32
  norm_num
  omega

/-- The debounce test, on the difference taken modulo `2^32`. -/
theorem debounce_test_iff (a b : Nat) :
    TIEMPO_DEBOUNCE_MS ≤ sub_u32 a b ↔ (200 : Int) ≤ ((a : Int) - (b : Int)) % 2 ^ 32 := by
  rw [← sub_u32_eq]
  unfold TIEMPO_DEBOUNCE_MS
  omega

/-- The handler on a button pin: the debounce test on the variable of that
button, then the write and the send. -/
theorem gpio_isr_handler_boton (gpio_num tiempo_actual : Nat) (g : Globals)
    (evento : evento_interrupcion_t) (p : UltimoTiempo)
    (hsel : select_boton gpio_num = some (evento, p)) :
    gpio_isr_handler gpio_num tiempo_actual g
      = (if TIEMPO_DEBOUNCE_MS ≤ sub_u32 tiempo_actual (g.read p) then
          { g.write p tiempo_actual with
            cola_eventos_gpio :=
              xQueueSendFromISR COLA_EVENTOS_LEN (g.write p tiempo_actual).cola_eventos_gpio
                evento }
         else g) := by
  simp only [gpio_isr_handler, hsel]

/-- C20, as stated, fails when the queue is full: with ten events queued, a
press of button 1 at time `1000`, last press at `0`, passes the debounce test
and sets the last-press time, and nothing is enqueued. -/
theorem isr_full_queue_drops_event :
    (200 : Int) ≤ ((1000 : Int) - 0) % 2 ^ 32 ∧
    (gpio_isr_handler BOTON_1_PIN 1000
      { cola_eventos_gpio := List.replicate 10 evento_interrupcion_t.EVENTO_BOTON_2,
        ultimo_tiempo_boton1 := 0, ultimo_tiempo_boton2 := 0, ultimo_tiempo_boton3 := 0 }
      ).ultimo_tiempo_boton1 = 1000 ∧
    (gpio_isr_handler BOTON_1_PIN 1000
      { cola_eventos_gpio := List.replicate 10 evento_interrupcion_t.EVENTO_BOTON_2,
        ultimo_tiempo_boton1 := 0, ultimo_tiempo_boton2 := 0, ultimo_tiempo_boton3 := 0 }
      ).cola_eventos_gpio = List.replicate 10 evento_interrupcion_t.EVENTO_BOTON_2 := by
  decide

/-- C20, amended: for a button pin, the handler sets that button's last-press
time to the current time if and only if the difference of current time and
last-press time, taken modulo `2^32`, is at least `200`, and then it sends
that button's event, which is enqueued when the queue holds fewer than `10`
events; otherwise the globals, queue included, are unchanged; the last-press
times of the other two buttons are never changed; and for a pin that is not a
button the globals are unchanged. -/
theorem isr_debounce (gpio_num tiempo_actual : Nat) (g : Globals) :
    (gpio_num = BOTON_1_PIN →
      ((200 : Int) ≤ ((tiempo_actual : Int) - (g.ultimo_tiempo_boton1 : Int)) % 2 ^ 32 →
        (gpio_isr_handler gpio_num tiempo_actual g).ultimo_tiempo_boton1 = tiempo_actual ∧
        (g.cola_eventos_gpio.length < 10 →
          (gpio_isr_handler gpio_num tiempo_actual g).cola_eventos_gpio
            = g.cola_eventos_gpio ++ [evento_interrupcion_t.EVENTO_BOTON_1])) ∧
      (¬ (200 : Int) ≤ ((tiempo_actual : Int) - (g.ultimo_tiempo_boton1 : Int)) % 2 ^ 32 →
        gpio_isr_handler gpio_num tiempo_actual g = g) ∧
      (gpio_isr_handler gpio_num tiempo_actual g).ultimo_tiempo_boton2
        = g.ultimo_tiempo_boton2 ∧
      (gpio_isr_handler gpio_num tiempo_actual g).ultimo_tiempo_boton3
        = g.ultimo_tiempo_boton3) ∧
    (gpio_num = BOTON_2_PIN →
      ((200 : Int) ≤ ((tiempo_actual : Int) - (g.ultimo_tiempo_boton2 : Int)) % 2 ^ 32 →
        (gpio_isr_handler gpio_num tiempo_actual g).ultimo_tiempo_boton2 = tiempo_actual ∧
        (g.cola_eventos_gpio.length < 10 →
          (gpio_isr_handler gpio_num tiempo_actual g).cola_eventos_gpio
            = g.cola_eventos_gpio ++ [evento_interrupcion_t.EVENTO_BOTON_2])) ∧
      (¬ (200 : Int) ≤ ((tiempo_actual : Int) - (g.ultimo_tiempo_boton2 : Int)) % 2 ^ 32 →
        gpio_isr_handler gpio_num tiempo_actual g = g) ∧
      (gpio_isr_handler gpio_num tiempo_actual g).ultimo_tiempo_boton1
        = g.ultimo_tiempo_boton1 ∧
      (gpio_isr_handler gpio_num tiempo_actual g).ultimo_tiempo_boton3
        = g.ultimo_tiempo_boton3) ∧
    (gpio_num = BOTON_3_PIN →
      ((200 : Int) ≤ ((tiempo_actual : Int) - (g.ultimo_tiempo_boton3 : Int)) % 2 ^ 32 →
        (gpio_isr_handler gpio_num tiempo_actual g).ultimo_tiempo_boton3 = tiempo_actual ∧
        (g.cola_eventos_gpio.length < 10 →
          (gpio_isr_handler gpio_num tiempo_actual g).cola_eventos_gpio
            = g.cola_eventos_gpio ++ [evento_interrupcion_t.EVENTO_BOTON_3])) ∧
      (¬ (200 : Int) ≤ ((tiempo_actual : Int) - (g.ultimo_tiempo_boton3 : Int)) % 2 ^ 32 →
        gpio_isr_handler gpio_num tiempo_actual g = g) ∧
      (gpio_isr_handler gpio_num tiempo_actual g).ultimo_tiempo_boton1
        = g.ultimo_tiempo_boton1 ∧
      (gpio_isr_handler gpio_num tiempo_actual g).ultimo_tiempo_boton2
        = g.ultimo_tiempo_boton2) ∧
    (gpio_num ≠ BOTON_1_PIN → gpio_num ≠ BOTON_2_PIN → gpio_num ≠ BOTON_3_PIN →
      gpio_isr_handler gpio_num tiempo_actual g = g) := by
  refine ⟨?_, ?_, ?_, ?_⟩
  · intro e
    have hsel : select_boton gpio_num
        = some (evento_interrupcion_t.EVENTO_BOTON_1, UltimoTiempo.boton1) := by
      rw [e]; decide
    rw [gpio_isr_handler_boton _ _ _ _ _ hsel, ← debounce_test_iff]
    simp only [Globals.read, Globals.write, xQueueSendFromISR, COLA_EVENTOS_LEN]
    refine ⟨fun h => ?_, fun h => ?_, ?_, ?_⟩
    · rw [if_pos h]
      exact ⟨rfl, fun hl => by simp [hl]⟩
    · rw [if_neg h]
    · split_ifs <;> rfl
    · split_ifs <;> rfl
  · intro e
    have hsel : select_boton gpio_num
        = some (evento_interrupcion_t.EVENTO_BOTON_2, UltimoTiempo.boton2) := by
      rw [e]; decide
    rw [gpio_isr_handler_boton _ _ _ _ _ hsel, ← debounce_test_iff]
    simp only [Globals.read, Globals.write, xQueueSendFromISR, COLA_EVENTOS_LEN]
    refine ⟨fun h => ?_, fun h => ?_, ?_, ?_⟩
    · rw [if_pos h]
      exact ⟨rfl, fun hl => by simp [hl]⟩
    · rw [if_neg h]
    · split_ifs <;> rfl
    · split_ifs <;> rfl
  · intro e
    have hsel : select_boton gpio_num
        = some (evento_interrupcion_t.EVENTO_BOTON_3, UltimoTiempo.boton3) := by
      rw [e]; decide
    rw [gpio_isr_handler_boton _ _ _ _ _ hsel, ← debounce_test_iff]
    simp only [Globals.read, Globals.write, xQueueSendFromISR, COLA_EVENTOS_LEN]
    refine ⟨fun h => ?_, fun h => ?_, ?_, ?_⟩
    · rw [if_pos h]
      exact ⟨rfl, fun hl => by simp [hl]⟩
    · rw [if_neg h]
    · split_ifs <;> rfl
    · split_ifs <;> rfl
  · intro n1 n2 n3
    have hsel : select_boton gpio_num = none := by
      simp [select_boton, n1, n2, n3]
    simp only [gpio_isr_handler, hsel]

theorem isr_debounce_witness :
    (gpio_isr_handler BOTON_2_PIN 150
      { cola_eventos_gpio := [], ultimo_tiempo_boton1 := 0,
        ultimo_tiempo_boton2 := 4294967246, ultimo_tiempo_boton3 := 0 }).ultimo_tiempo_boton2
      = 150 ∧
    (gpio_isr_handler BOTON_2_PIN 150
      { cola_eventos_gpio := [], ultimo_tiempo_boton1 := 0,
        ultimo_tiempo_boton2 := 4294967246, ultimo_tiempo_boton3 := 0 }).cola_eventos_gpio
      = [] ++ [evento_interrupcion_t.EVENTO_BOTON_2] ∧
    gpio_isr_handler BOTON_2_PIN 150
      { cola_eventos_gpio := [], ultimo_tiempo_boton1 := 0,
        ultimo_tiempo_boton2 := 4294967286, ultimo_tiempo_boton3 := 0 }
      = { cola_eventos_gpio := [], ultimo_tiempo_boton1 := 0,
          ultimo_tiempo_boton2 := 4294967286, ultimo_tiempo_boton3 := 0 } ∧
    gpio_isr_handler 20 150
      { cola_eventos_gpio := [], ultimo_tiempo_boton1 := 0,
        ultimo_tiempo_boton2 := 0, ultimo_tiempo_boton3 := 0 }
      = { cola_eventos_gpio := [], ultimo_tiempo_boton1 := 0,
          ultimo_tiempo_boton2 := 0, ultimo_tiempo_boton3 := 0 } :=
  have h := ((isr_debounce BOTON_2_PIN 150
      { cola_eventos_gpio := [], ultimo_tiempo_boton1 := 0,
        ultimo_tiempo_boton2 := 4294967246, ultimo_tiempo_boton3 := 0 }).2.1 rfl).1
      (by decide)
  ⟨h.1, h.2 (by decide),
   ((isr_debounce BOTON_2_PIN 150
      { cola_eventos_gpio := [], ultimo_tiempo_boton1 := 0,
        ultimo_tiempo_boton2 := 4294967286, ultimo_tiempo_boton3 := 0 }).2.1 rfl).2.1
      (by decide),
   (isr_debounce 20 150
      { cola_eventos_gpio := [], ultimo_tiempo_boton1 := 0,
        ultimo_tiempo_boton2 := 0, ultimo_tiempo_boton3 := 0 }).2.2.2
      (by decide) (by decide) (by decide)⟩

end LedsInterrupciones

namespace SincroAvanzada

/-! ## The ranges of the simulated readings -/

/-- A reading `base + (r % m) / 100` lies between `base` and `base + m / 100`. -/
theorem reading_range (base m r : Nat) (hm : 0 < m) :
    ((base : Nat) : ℚ) ≤ ((base : Nat) : ℚ) + ((r % m : Nat) : ℚ) / ((100 : Nat) : ℚ) ∧
    ((base : Nat) : ℚ) + ((r % m : Nat) : ℚ) / ((100 : Nat) : ℚ)
      < ((base : Nat) : ℚ) + ((m : Nat) : ℚ) / ((100 : Nat) : ℚ) := by
  have h1 : ((r % m : Nat) : ℚ) < ((m : Nat) : ℚ) := by
    exact_mod_cast Nat.mod_lt r hm
  have h0 : (0 : ℚ) ≤ ((r % m : Nat) : ℚ) := Nat.cast_nonneg _
  have h100 : (0 : ℚ) < ((100 : Nat) : ℚ) := by norm_num
  constructor
  · have := div_nonneg h0 h100.le
    linarith
  · have := div_lt_div_of_pos_right h1 h100
    linarith

end SincroAvanzada

namespace P_2_1

/-! ## The humidity producer of P_2.1 -/

/-- C22 fails on the code: with `esp_random()` returning `0`, the sample the
humidity producer sends has `ID = 2` and the value `20`, below `30`; and for
every value of `esp_random()` the reading lies in `[20, 40)`, the range of the
temperature producer, so it is never above `40` and is below `30` whenever
`rnd % 2000 < 1000`. -/
theorem humidity_reading_out_of_range (rnd tick : Nat) :
    (generate_data_humidity 0 tick ([] : List (sensor_data_t ℚ))).2
      = [{ ID := 2, value := 20, timestamp := tick }] ∧
    ¬ ((30 : ℚ) ≤ (humidity_sample 0 tick : sensor_data_t ℚ).value) ∧
    ((20 : ℚ) ≤ (humidity_sample rnd tick : sensor_data_t ℚ).value ∧
      (humidity_sample rnd tick : sensor_data_t ℚ).value < 40) ∧
    (rnd % 2000 < 1000 ↔ (humidity_sample rnd tick : sensor_data_t ℚ).value < 30) := by
  have h := SincroAvanzada.reading_range 20 2000 rnd (by norm_num)
  refine ⟨?_, ?_, ?_, ?_⟩
  · simp [generate_data_humidity, SincroAvanzada.xQueueSend, QUEUE_SIZE, humidity_sample,
      humidity_reading]
  · simp [humidity_sample, humidity_reading]
    norm_num
  · simp only [humidity_sample, humidity_reading]
    norm_num at h ⊢
    exact ⟨h.1, by linarith [h.2]⟩
  · simp only [humidity_sample, humidity_reading]
    have h100 : (0 : ℚ) < 100 := by norm_num
    constructor
    · intro hlt
      have h1 : ((rnd % 2000 : Nat) : ℚ) < 1000 := by exact_mod_cast hlt
      have := div_lt_div_of_pos_right h1 h100
      norm_num at this ⊢
      linarith
    · intro hv
      by_contra hge
      have h1 : (1000 : ℚ) ≤ ((rnd % 2000 : Nat) : ℚ) := by
        exact_mod_cast (Nat.le_of_not_lt hge)
      have := div_le_div_of_nonneg_right h1 h100.le
      norm_num at this hv
      linarith

end P_2_1
